import Mathlib

/-!
# Instanced grid placement and command-line handling of `triangle_test`

A shallow embedding of the two programs `triangle.c` (the timed variant) and
`triangle-opengles.c`:

* the integer and floating-point arithmetic of the vertex shader
  (`vertex_shader_text`, identical in both files), with its `float` over the
  rationals and its `int` both over the unbounded integers and in 32 bits;
* `parse_int` and the option loop of each `main`, as a function of the
  successive results of `getopt_long`;
* the instanced draw call of each render loop, and the whole render loop and
  result report of the timed variant;
* `polygon_mode_name` and the start of each `main` up to the creation of the
  window;
* the integer part of the shader with `layer_size` in 32 bits, and the static
  mesh `vertices` of each program.

Definitions come first, theorems afterwards.
-/

/-! ## Vertex shader -/

namespace Shader

/-- A `vec3` of the shader, over the rationals. -/
structure Vec3 where
  x : ℚ
  y : ℚ
  z : ℚ

/-- A `vec4` of the shader, over the rationals. -/
structure Vec4 where
  x : ℚ
  y : ℚ
  z : ℚ
  w : ℚ

/-- Shader line `int layer_size = CellX * CellY;`. -/
def layer_size (CellX CellY : Int) : Int := CellX * CellY

/-- Shader line `int layer_idx = gl_InstanceID / layer_size;` (integer division
truncates). -/
def layer_idx (CellX CellY gl_InstanceID : Int) : Int :=
  Int.tdiv gl_InstanceID (layer_size CellX CellY)

/-- Shader line `int layer_remain = gl_InstanceID % layer_size;`. -/
def layer_remain (CellX CellY gl_InstanceID : Int) : Int :=
  Int.tmod gl_InstanceID (layer_size CellX CellY)

/-- Shader line `int y_idx = layer_remain / CellX;`. -/
def y_idx (CellX CellY gl_InstanceID : Int) : Int :=
  Int.tdiv (layer_remain CellX CellY gl_InstanceID) CellX

/-- Shader line `int x_idx = layer_remain % CellX;`. -/
def x_idx (CellX CellY gl_InstanceID : Int) : Int :=
  Int.tmod (layer_remain CellX CellY gl_InstanceID) CellX

/-- Shader line `float step_x = 2.0 / float(CellX);`. -/
def step_x (CellX : Int) : ℚ := 2 / (CellX : ℚ)

/-- Shader line `float step_y = 2.0 / float(CellY);`. -/
def step_y (CellY : Int) : ℚ := 2 / (CellY : ℚ)

/-- Shader line `float step_z = 1.0 / float(Layers);`. -/
def step_z (Layers : Int) : ℚ := 1 / (Layers : ℚ)

/-- The value the shader assigns to `gl_Position` for the vertex attribute `vPos`
of instance `gl_InstanceID`. -/
def gl_Position (CellX CellY Layers gl_InstanceID : Int) (vPos : Vec3) : Vec4 :=
  { x := step_x CellX * (x_idx CellX CellY gl_InstanceID : ℚ) - 1
      + (vPos.x + 1) * step_x CellX * (1 / 2)
    y := step_y CellY * (y_idx CellX CellY gl_InstanceID : ℚ) - 1
      + (vPos.y + 1) * step_y CellY * (1 / 2)
    z := 1 - step_z Layers * (layer_idx CellX CellY gl_InstanceID : ℚ)
    w := 1 }

/-- The region of the screen covered by instance `gl_InstanceID`: the `(x, y)`
components of `gl_Position` over all local positions of the quad
`[-1,1] x [-1,1]`. -/
def placedQuad (CellX CellY Layers gl_InstanceID : Int) : Set (ℚ × ℚ) :=
  {p | ∃ v : Vec3, (-1 ≤ v.x ∧ v.x ≤ 1) ∧ (-1 ≤ v.y ∧ v.y ≤ 1) ∧
    (gl_Position CellX CellY Layers gl_InstanceID v).x = p.1 ∧
    (gl_Position CellX CellY Layers gl_InstanceID v).y = p.2}

/-- The closed rectangle of the grid cell in column `a` and row `b`. -/
def cellRect (CellX CellY a b : Int) : Set (ℚ × ℚ) :=
  {p | ((a : ℚ) * step_x CellX - 1 ≤ p.1 ∧ p.1 ≤ ((a : ℚ) + 1) * step_x CellX - 1) ∧
    ((b : ℚ) * step_y CellY - 1 ≤ p.2 ∧ p.2 ≤ ((b : ℚ) + 1) * step_y CellY - 1)}

/-- The interior of the rectangle of the grid cell in column `a` and row `b`. -/
def cellInterior (CellX CellY a b : Int) : Set (ℚ × ℚ) :=
  {p | ((a : ℚ) * step_x CellX - 1 < p.1 ∧ p.1 < ((a : ℚ) + 1) * step_x CellX - 1) ∧
    ((b : ℚ) * step_y CellY - 1 < p.2 ∧ p.2 < ((b : ℚ) + 1) * step_y CellY - 1)}

/-- The square `[-1,1] x [-1,1]` of normalized device coordinates. -/
def ndcSquare : Set (ℚ × ℚ) :=
  {p | (-1 ≤ p.1 ∧ p.1 ≤ 1) ∧ (-1 ≤ p.2 ∧ p.2 ≤ 1)}

end Shader

/-! ## C library and `parse_int` -/

/-- The macro `EXIT_SUCCESS` of `<stdlib.h>`. -/
def EXIT_SUCCESS : Int := 0

/-- The macro `EXIT_FAILURE` of `<stdlib.h>`. -/
def EXIT_FAILURE : Int := 1

/-- Reduction of an integer to the range of a 32-bit two's complement `int`. -/
def toInt32 (v : Int) : Int := (v + 2 ^ 31) % 2 ^ 32 - 2 ^ 31

/-- Multiplication of two C `int` values, kept in 32 bits. -/
def mulInt32 (a b : Int) : Int := toInt32 (a * b)

/-- The function `isspace` of `<ctype.h>` in the C locale. -/
def isspace (c : Char) : Bool :=
  c = ' ' || c = '\t' || c = '\n' || c = '\x0b' || c = '\x0c' || c = '\r'

/-- The function `isdigit` of `<ctype.h>`. -/
def isdigit (c : Char) : Bool := decide ('0' ≤ c ∧ c ≤ '9')

/-- Leading white space is skipped by `atoi`. -/
def skipSpaces : List Char → List Char
  | [] => []
  | c :: cs => if isspace c then skipSpaces cs else c :: cs

/-- The value of the longest prefix of decimal digits, continuing from `acc`. -/
def digitsValue : Int → List Char → Int
  | acc, [] => acc
  | acc, c :: cs =>
    if isdigit c then digitsValue (acc * 10 + ((c.toNat : Int) - 48)) cs else acc

/-- The number `atoi` reads: optional white space, an optional sign, then the
longest run of decimal digits (zero when there is none). -/
def decimalPrefix (s : List Char) : Int :=
  match skipSpaces s with
  | '-' :: cs => - digitsValue 0 cs
  | '+' :: cs => digitsValue 0 cs
  | cs => digitsValue 0 cs

/-- The range of a 64-bit `long`: `strtol` returns `LONG_MIN` or `LONG_MAX` for a
number outside it. -/
def clampLong (v : Int) : Int :=
  if v < -(2 ^ 63) then -(2 ^ 63) else if 2 ^ 63 - 1 < v then 2 ^ 63 - 1 else v

/-- The function `atoi` of `<stdlib.h>`. Its result is an `int`; where the number
read does not fit, ISO C leaves the result open and this model follows the
common `(int) strtol(s, NULL, 10)` with a 64-bit `long`: the number is brought
into the range of `long`, then its low 32 bits are kept. -/
def atoi (s : String) : Int := toInt32 (clampLong (decimalPrefix s.data))

/-- What a call of `exit` leaves behind: the exit status and what the failing
step wrote to the standard output and to the standard error stream. -/
structure Exit where
  status : Int
  out : List String
  err : List String
deriving DecidableEq, Repr

/-- The function `parse_int` (the same in both programs): the new value of `*n`
for the option argument `optarg`, or the exit it performs. -/
def parse_int (optarg : String) (name : String) : Except Exit Int :=
  let t := atoi optarg
  if t > 0 then
    .ok t
  else
    .error
      { status := EXIT_FAILURE
        out := []
        err := ["`" ++ name ++ "` must be a number greater than zero!\n"] }

/-- One result of `getopt_long`: the returned value `ch` and the global `optarg`
at that moment. -/
structure GetoptResult where
  ch : Int
  optarg : String
deriving DecidableEq, Repr

/-- A character constant of C as an `int`. -/
def chr (c : Char) : Int := (c.toNat : Int)

/-- The property the claims call "the decimal text of an integer strictly
greater than zero": a non-empty string of decimal digits whose value is
positive. -/
def isPositiveDecimalText (s : String) : Bool :=
  !s.data.isEmpty && s.data.all isdigit && decide (0 < digitsValue 0 s.data)

/-! ## `triangle.c`, the timed variant -/

namespace Triangle

/-- The constants `GL_POINT`, `GL_LINE` and `GL_FILL` of the OpenGL headers. -/
def GL_POINT : Int := 0x1B00

@[inherit_doc GL_POINT]
def GL_LINE : Int := 0x1B01

@[inherit_doc GL_POINT]
def GL_FILL : Int := 0x1B02

/-- The local variables of `main` that the options set. -/
structure Config where
  width : Int
  height : Int
  x : Int
  y : Int
  z : Int
  enable_depth_test : Int
  enable_cull_face : Int
  polygon_mode : Int
  frames : Int
deriving DecidableEq, Repr

/-- The initial values of the locals of `main`. -/
def defaults : Config :=
  { width := 1024, height := 768, x := 16, y := 12, z := 4,
    enable_depth_test := 0, enable_cull_face := 0, polygon_mode := GL_FILL, frames := 100 }

/-- The anonymous `enum` of `main`. -/
def WINDOW_WIDTH : Int := 0

@[inherit_doc WINDOW_WIDTH]
def WINDOW_HEIGHT : Int := 1

@[inherit_doc WINDOW_WIDTH]
def CELLS_IN_X : Int := 2

@[inherit_doc WINDOW_WIDTH]
def CELLS_IN_Y : Int := 3

@[inherit_doc WINDOW_WIDTH]
def LAYERS : Int := 4

@[inherit_doc WINDOW_WIDTH]
def ENABLE_DEPTH_TEST : Int := 5

@[inherit_doc WINDOW_WIDTH]
def ENABLE_CULL_FACE : Int := 6

@[inherit_doc WINDOW_WIDTH]
def POLYGON_MODE : Int := 7

@[inherit_doc WINDOW_WIDTH]
def FRAMES : Int := 8

@[inherit_doc WINDOW_WIDTH]
def HELP : Int := 9

/-- The text `usage` prints to the standard output. -/
def usage : List String :=
  [ "Usage: triangle-test [OPTION]...\n",
    "Options:\n",
    "  -w, --width=WIDTH        the window width in pixels, default: 1024\n",
    "  -g, --height=HEIGHT      the window height in pixels, default: 768\n",
    "  -x, --cells-in-x=X       the number of grid cells in horizontal, default: 16\n",
    "  -y, --cells-in-y=Y       the number of grid cells in vertical, default: 12\n",
    "  -z, --layers=Z           the number of layers, default: 4\n",
    "      --enable-depth-test  enable depth test\n",
    "      --enable-cull-face   enable cull face\n",
    "      --polygon-mode=MODE  polygon mode must be: 'point', 'line' or 'fill', default: 'fill'\n",
    "  -f, --frames=FRAMES      number of rendering frames, default: 100\n",
    "  -h, --help               show this help\n" ]

/-- The body of the option loop of `main`: the `switch (ch)` for one result of
`getopt_long`. -/
def option_step (c : Config) (r : GetoptResult) : Except Exit Config :=
  if r.ch = chr 'w' ∨ r.ch = WINDOW_WIDTH then
    if r.optarg ≠ "-" then
      (parse_int r.optarg "width").map fun t => { c with width := t }
    else .ok c
  else if r.ch = chr 'g' ∨ r.ch = WINDOW_HEIGHT then
    if r.optarg ≠ "-" then
      (parse_int r.optarg "height").map fun t => { c with height := t }
    else .ok c
  else if r.ch = chr 'x' ∨ r.ch = CELLS_IN_X then
    if r.optarg ≠ "-" then
      (parse_int r.optarg "cells-in-x").map fun t => { c with x := t }
    else .ok c
  else if r.ch = chr 'y' ∨ r.ch = CELLS_IN_Y then
    if r.optarg ≠ "-" then
      (parse_int r.optarg "cells-in-y").map fun t => { c with y := t }
    else .ok c
  else if r.ch = chr 'z' ∨ r.ch = LAYERS then
    if r.optarg ≠ "-" then
      (parse_int r.optarg "layers").map fun t => { c with z := t }
    else .ok c
  else if r.ch = ENABLE_DEPTH_TEST then
    .ok { c with enable_depth_test := 1 }
  else if r.ch = ENABLE_CULL_FACE then
    .ok { c with enable_cull_face := 1 }
  else if r.ch = POLYGON_MODE then
    if r.optarg = "point" then .ok { c with polygon_mode := GL_POINT }
    else if r.optarg = "line" then .ok { c with polygon_mode := GL_LINE }
    else if r.optarg = "fill" then .ok { c with polygon_mode := GL_FILL }
    else
      .error
        { status := EXIT_FAILURE
          out := []
          err := ["'--polygon-mode' must be 'point', 'line' or 'fill'!\n"] }
  else if r.ch = chr 'f' ∨ r.ch = FRAMES then
    if r.optarg ≠ "-" then
      (parse_int r.optarg "frames").map fun t => { c with frames := t }
    else .ok c
  else if r.ch = chr 'h' ∨ r.ch = HELP then
    .error { status := EXIT_SUCCESS, out := usage, err := [] }
  else
    .error { status := EXIT_FAILURE, out := usage, err := [] }

/-- The option loop of `main`, run from the locals `c` over the successive
results of `getopt_long` (up to the result `-1`, which ends the loop). -/
def option_loop : Config → List GetoptResult → Except Exit Config
  | c, [] => .ok c
  | c, r :: rs =>
    match option_step c r with
    | .ok c' => option_loop c' rs
    | .error e => .error e

/-- The option parsing of `main`, from the initial values of its locals. -/
def parse_options (rs : List GetoptResult) : Except Exit Config :=
  option_loop defaults rs

/-- The `instancecount` argument `x*y*z` of the call of `glDrawArraysInstanced`,
computed in `int`. -/
def draw_instancecount (c : Config) : Int := mulInt32 (mulInt32 c.x c.y) c.z

/-- The value of `int triangles = 2 * x * y * z;`, printed after the loop as
`triangles per frame`. -/
def triangles (c : Config) : Int := mulInt32 (mulInt32 (mulInt32 2 c.x) c.y) c.z

/-- What the render loop observes from outside, as functions of the number of
frames completed so far: whether `glfwWindowShouldClose` answers true at the
loop head, whether the timer query result is available after `glFinish`, and
the elapsed time the query reports. -/
structure Env where
  shouldClose : Int → Bool
  isAvailable : Int → Bool
  ns : Int → Nat

/-- The state of the render loop: the frame counter `fc`, the accumulated
`total_ns`, the `instancecount` of every draw call issued so far (oldest first)
and what was written to the standard error stream. -/
structure LoopState where
  fc : Int
  total_ns : Nat
  draws : List Int
  err : List String
deriving DecidableEq, Repr

/-- The state before the first iteration: `fc = 0`, `total_ns = 0`. -/
def LoopState.init : LoopState := { fc := 0, total_ns := 0, draws := [], err := [] }

/-- The render loop `while (!glfwWindowShouldClose(window) && (fc < frames))`,
bounded by `fuel` iterations; `none` when the fuel runs out before the loop ends. -/
def render_loop (c : Config) (env : Env) : Nat → LoopState → Option LoopState
  | fuel, s =>
    if !env.shouldClose s.fc && decide (s.fc < c.frames) then
      match fuel with
      | 0 => none
      | fuel + 1 =>
        let s1 := { s with draws := s.draws ++ [draw_instancecount c] }
        if !env.isAvailable s.fc then
          some { s1 with err := s1.err ++ ["GL_QUERY_RESULT_AVAILABLE!\n"] }
        else
          render_loop c env fuel
            { s1 with total_ns := s1.total_ns + env.ns s.fc, fc := s.fc + 1 }
    else
      some s

/-- The render loop of `main` from its initial state, with as many iterations
allowed as `frames` asks for. -/
def run_render_loop (c : Config) (env : Env) : Option LoopState :=
  render_loop c env c.frames.toNat LoopState.init

/-- The numeric options of the `switch`: for a result `ch` of `getopt_long` that
selects one of them, the name handed to `parse_int` and the local that
`parse_int` writes. -/
def numeric_flag (ch : Int) : Option (String × (Config → Int → Config)) :=
  if ch = chr 'w' ∨ ch = WINDOW_WIDTH then some ("width", fun c t => { c with width := t })
  else if ch = chr 'g' ∨ ch = WINDOW_HEIGHT then
    some ("height", fun c t => { c with height := t })
  else if ch = chr 'x' ∨ ch = CELLS_IN_X then some ("cells-in-x", fun c t => { c with x := t })
  else if ch = chr 'y' ∨ ch = CELLS_IN_Y then some ("cells-in-y", fun c t => { c with y := t })
  else if ch = chr 'z' ∨ ch = LAYERS then some ("layers", fun c t => { c with z := t })
  else if ch = chr 'f' ∨ ch = FRAMES then some ("frames", fun c t => { c with frames := t })
  else none

/-- The invariant of the configuration: a positive window size, at least one cell
in each direction, at least one layer and a positive number of frames. -/
def Config.valid (c : Config) : Prop :=
  0 < c.width ∧ 0 < c.height ∧ 1 ≤ c.x ∧ 1 ≤ c.y ∧ 1 ≤ c.z ∧ 0 < c.frames

instance (c : Config) : Decidable c.valid := by
  unfold Config.valid
  infer_instance

end Triangle

/-! ## `triangle-opengles.c` -/

namespace TriangleGles

/-- The local variables of `main` that the options set. -/
structure Config where
  width : Int
  height : Int
  x : Int
  y : Int
  z : Int
deriving DecidableEq, Repr

/-- The initial values of the locals of `main`. -/
def defaults : Config := { width := 1024, height := 768, x := 16, y := 12, z := 4 }

/-- The anonymous `enum` of `main`. -/
def WINDOW_WIDTH : Int := 0

@[inherit_doc WINDOW_WIDTH]
def WINDOW_HEIGHT : Int := 1

@[inherit_doc WINDOW_WIDTH]
def CELLS_IN_X : Int := 2

@[inherit_doc WINDOW_WIDTH]
def CELLS_IN_Y : Int := 3

@[inherit_doc WINDOW_WIDTH]
def LAYERS : Int := 4

@[inherit_doc WINDOW_WIDTH]
def HELP : Int := 5

/-- The text `usage` prints to the standard output. -/
def usage : List String :=
  [ "Usage: triangle-test [OPTION]...\n",
    "Options:\n",
    "  -w, --width=WIDTH        the window width in pixels, default: 1024\n",
    "  -g, --height=HEIGHT      the window height in pixels, default: 768\n",
    "  -x, --cell-in-x=X        the number of grid cells in horizontal, default: 16\n",
    "  -y, --cell-in-y=Y        the number of grid cells in vertical, default: 12\n",
    "  -z, --layers=Z           the number of layers, default: 4\n",
    "  -h, --help               show this help\n" ]

/-- The body of the option loop of `main`: the `switch (ch)` for one result of
`getopt_long`. -/
def option_step (c : Config) (r : GetoptResult) : Except Exit Config :=
  if r.ch = chr 'w' ∨ r.ch = WINDOW_WIDTH then
    if r.optarg ≠ "-" then
      (parse_int r.optarg "width").map fun t => { c with width := t }
    else .ok c
  else if r.ch = chr 'g' ∨ r.ch = WINDOW_HEIGHT then
    if r.optarg ≠ "-" then
      (parse_int r.optarg "height").map fun t => { c with height := t }
    else .ok c
  else if r.ch = chr 'x' ∨ r.ch = CELLS_IN_X then
    if r.optarg ≠ "-" then
      (parse_int r.optarg "cells-in-x").map fun t => { c with x := t }
    else .ok c
  else if r.ch = chr 'y' ∨ r.ch = CELLS_IN_Y then
    if r.optarg ≠ "-" then
      (parse_int r.optarg "cells-in-y").map fun t => { c with y := t }
    else .ok c
  else if r.ch = chr 'z' ∨ r.ch = LAYERS then
    if r.optarg ≠ "-" then
      (parse_int r.optarg "layers").map fun t => { c with z := t }
    else .ok c
  else if r.ch = chr 'h' ∨ r.ch = HELP then
    .error { status := EXIT_SUCCESS, out := usage, err := [] }
  else
    .error { status := EXIT_FAILURE, out := usage, err := [] }

/-- The option loop of `main`, run from the locals `c` over the successive
results of `getopt_long` (up to the result `-1`, which ends the loop). -/
def option_loop : Config → List GetoptResult → Except Exit Config
  | c, [] => .ok c
  | c, r :: rs =>
    match option_step c r with
    | .ok c' => option_loop c' rs
    | .error e => .error e

/-- The option parsing of `main`, from the initial values of its locals. -/
def parse_options (rs : List GetoptResult) : Except Exit Config :=
  option_loop defaults rs

/-- The `instancecount` argument `x*y` of the call of `glDrawArraysInstanced`,
computed in `int`. -/
def draw_instancecount (c : Config) : Int := mulInt32 c.x c.y

/-- The numeric options of the `switch`: for a result `ch` of `getopt_long` that
selects one of them, the name handed to `parse_int` and the local that
`parse_int` writes. -/
def numeric_flag (ch : Int) : Option (String × (Config → Int → Config)) :=
  if ch = chr 'w' ∨ ch = WINDOW_WIDTH then some ("width", fun c t => { c with width := t })
  else if ch = chr 'g' ∨ ch = WINDOW_HEIGHT then
    some ("height", fun c t => { c with height := t })
  else if ch = chr 'x' ∨ ch = CELLS_IN_X then some ("cells-in-x", fun c t => { c with x := t })
  else if ch = chr 'y' ∨ ch = CELLS_IN_Y then some ("cells-in-y", fun c t => { c with y := t })
  else if ch = chr 'z' ∨ ch = LAYERS then some ("layers", fun c t => { c with z := t })
  else none

/-- The invariant of the configuration: a positive window size, at least one cell
in each direction and at least one layer. -/
def Config.valid (c : Config) : Prop :=
  0 < c.width ∧ 0 < c.height ∧ 1 ≤ c.x ∧ 1 ≤ c.y ∧ 1 ≤ c.z

instance (c : Config) : Decidable c.valid := by
  unfold Config.valid
  infer_instance

end TriangleGles
/-! ## The start of `main`, up to the creation of the window -/

/-- How far `main` gets before it creates the window: it leaves through `exit`
in the option loop, it fails the assertion of `polygon_mode_name`, it leaves
with `EXIT_FAILURE` because `glfwInit` failed, or it reaches the first call of
`glfwCreateWindow` with the configuration `c`. -/
inductive Startup (Config : Type) where
  | exited (e : Exit)
  | assertion_failed
  | init_failed
  | creates_window (c : Config)

namespace Triangle

/-- The function `polygon_mode_name`; `none` when its assertion
`polygon_mode == GL_POINT || polygon_mode == GL_LINE || polygon_mode == GL_FILL`
fails. -/
def polygon_mode_name (polygon_mode : Int) : Option String :=
  if polygon_mode = GL_POINT ∨ polygon_mode = GL_LINE ∨ polygon_mode = GL_FILL then
    if polygon_mode = GL_POINT then some "GL_POINT"
    else if polygon_mode = GL_LINE then some "GL_LINE"
    else some "GL_FILL"
  else none

/-- The start of `main`: the option loop, the echo of the parameters (which calls
`polygon_mode_name`), then `glfwInit`, whose result is the argument `glfwInit`,
and the call of `glfwCreateWindow`. -/
def main_startup (rs : List GetoptResult) ( glfwInit : Bool) : Startup Config :=
  match parse_options rs with
  | .error e => .exited e
  | .ok c =>
    match polygon_mode_name c.polygon_mode with
    | none => .assertion_failed
    | some _ => if glfwInit then .creates_window c else .init_failed

end Triangle

namespace TriangleGles

/-- The start of `main`: the option loop, the echo of the parameters, then
`glfwInit`, whose result is the argument `glfwInit`, and the first call of
`glfwCreateWindow`. -/
def main_startup (rs : List GetoptResult) ( glfwInit : Bool) : Startup Config :=
  match parse_options rs with
  | .error e => .exited e
  | .ok c => if glfwInit then .creates_window c else .init_failed

end TriangleGles

/-! ## The shader with 32-bit integers -/

namespace Shader

/-- Shader line `int layer_size = CellX * CellY;` in the 32-bit `int` of the
shader. -/
def layer_size32 (CellX CellY : Int) : Int := mulInt32 CellX CellY

/-- The divisors of the shader, in the order of its lines: `layer_size` (in
`layer_idx` and in `layer_remain`), `CellX` (in `y_idx` and in `x_idx`), then
`float(CellX)`, `float(CellY)` and `float(Layers)` of the three steps. -/
def divisors32 (CellX CellY Layers : Int) : List Int :=
  [layer_size32 CellX CellY, layer_size32 CellX CellY, CellX, CellX, CellX, CellY, Layers]

/-- Integer division of the shader, undefined (`none`) on a zero divisor. -/
def checked_div (a b : Int) : Option Int := if b = 0 then none else some (Int.tdiv a b)

/-- Integer remainder of the shader, undefined (`none`) on a zero divisor. -/
def checked_mod (a b : Int) : Option Int := if b = 0 then none else some (Int.tmod a b)

/-- The shader lines that compute `(layer_idx, y_idx, x_idx)`, with `layer_size`
in 32 bits; `none` when one of the divisions has a zero divisor. -/
def indices32 (CellX CellY gl_InstanceID : Int) : Option (Int × Int × Int) := do
  let layer_size := layer_size32 CellX CellY
  let layer_idx ← checked_div gl_InstanceID layer_size
  let layer_remain ← checked_mod gl_InstanceID layer_size
  let y_idx ← checked_div layer_remain CellX
  let x_idx ← checked_mod layer_remain CellX
  pure (layer_idx, y_idx, x_idx)

/-- The area, with its sign, of the triangle `a b c` in the `(x, y)` plane:
positive when the three points turn counter-clockwise. -/
def signedArea (a b c : ℚ × ℚ) : ℚ :=
  (1 / 2) * ((b.1 - a.1) * (c.2 - a.2) - (c.1 - a.1) * (b.2 - a.2))

/-- OpenGL's rule for the facing of a triangle under the initial state
`glFrontFace(GL_CCW)`, which neither program changes: front-facing when the
signed area is positive. -/
def frontFacing (a b c : ℚ × ℚ) : Prop := 0 < signedArea a b c

/-- The `(x, y)` components of `gl_Position` for the vertex position `vPos` in the
placement of `gl_InstanceID`. -/
def placed (CellX CellY Layers gl_InstanceID : Int) (vPos : Vec3) : ℚ × ℚ :=
  ((gl_Position CellX CellY Layers gl_InstanceID vPos).x,
    (gl_Position CellX CellY Layers gl_InstanceID vPos).y)

end Shader

/-! ## The static mesh -/

/-- The `struct Vertex` of both programs. -/
structure Vertex where
  pos : Shader.Vec3
  col : Shader.Vec3

namespace Triangle

/-- The array `vertices` of `triangle.c`. -/
def vertices : List Vertex :=
  [ { pos := ⟨-1, -1, 0⟩, col := ⟨1, 0, 0⟩ },
    { pos := ⟨1, -1, 0⟩, col := ⟨0, 1, 0⟩ },
    { pos := ⟨-1, 1, 0⟩, col := ⟨0, 0, 1⟩ },
    { pos := ⟨-1, 1, 0⟩, col := ⟨0, 1, 0⟩ },
    { pos := ⟨1, -1, 0⟩, col := ⟨0, 0, 1⟩ },
    { pos := ⟨1, 1, 0⟩, col := ⟨1, 0, 0⟩ } ]

end Triangle

namespace TriangleGles

/-- The array `vertices` of `triangle-opengles.c`. -/
def vertices : List Vertex :=
  [ { pos := ⟨-1, -1, 0⟩, col := ⟨1, 0, 0⟩ },
    { pos := ⟨1, -1, 0⟩, col := ⟨0, 1, 0⟩ },
    { pos := ⟨-1, 1, 0⟩, col := ⟨0, 0, 1⟩ },
    { pos := ⟨-1, 1, 0⟩, col := ⟨0, 0, 1⟩ },
    { pos := ⟨1, -1, 0⟩, col := ⟨0, 1, 0⟩ },
    { pos := ⟨1, 1, 0⟩, col := ⟨1, 1, 0⟩ } ]

end TriangleGles

/-- The triangles that `glDrawArraysInstanced(GL_TRIANGLES, 0, 6, ...)` assembles
from the vertex array: the positions of the vertices 0, 1, 2 and of the vertices
3, 4, 5. -/
def meshTriangles : List Vertex → List (Shader.Vec3 × Shader.Vec3 × Shader.Vec3)
  | a :: b :: c :: rest => (a.pos, b.pos, c.pos) :: meshTriangles rest
  | _ => []

/-- The `(x, y, z)` coordinates of a position. -/
def coords (v : Shader.Vec3) : ℚ × ℚ × ℚ := (v.x, v.y, v.z)

/-! ## The index decomposition of the shader -/

namespace Shader

theorem layer_size_pos {X Y : Int} (hX : 1 ≤ X) (hY : 1 ≤ Y) : 0 < layer_size X Y := by
  unfold layer_size; positivity

theorem layer_idx_eq {X Y i : Int} (hX : 1 ≤ X) (hY : 1 ≤ Y) (hi : 0 ≤ i) :
    layer_idx X Y i = i / (X * Y) := by
  have h := layer_size_pos hX hY
  unfold layer_idx
  rw [Int.tdiv_eq_ediv hi h.le]; rfl

theorem layer_remain_eq {X Y i : Int} (hX : 1 ≤ X) (hY : 1 ≤ Y) (hi : 0 ≤ i) :
    layer_remain X Y i = i % (X * Y) := by
  have h := layer_size_pos hX hY
  unfold layer_remain
  rw [Int.tmod_eq_emod hi h.le]; rfl

theorem layer_remain_nonneg {X Y i : Int} (hX : 1 ≤ X) (hY : 1 ≤ Y) (hi : 0 ≤ i) :
    0 ≤ layer_remain X Y i := by
  rw [layer_remain_eq hX hY hi]
  exact Int.emod_nonneg _ (ne_of_gt (layer_size_pos hX hY))

theorem y_idx_eq {X Y i : Int} (hX : 1 ≤ X) (hY : 1 ≤ Y) (hi : 0 ≤ i) :
    y_idx X Y i = i % (X * Y) / X := by
  unfold y_idx
  rw [Int.tdiv_eq_ediv (layer_remain_nonneg hX hY hi) (by omega), layer_remain_eq hX hY hi]

theorem x_idx_eq {X Y i : Int} (hX : 1 ≤ X) (hY : 1 ≤ Y) (hi : 0 ≤ i) :
    x_idx X Y i = i % (X * Y) % X := by
  unfold x_idx
  rw [Int.tmod_eq_emod (layer_remain_nonneg hX hY hi) (by omega), layer_remain_eq hX hY hi]

/-- Recomposition. -/
theorem idx_recompose {X Y i : Int} (hX : 1 ≤ X) (hY : 1 ≤ Y) (hi : 0 ≤ i) :
    i = layer_idx X Y i * X * Y + y_idx X Y i * X + x_idx X Y i := by
  rw [layer_idx_eq hX hY hi, y_idx_eq hX hY hi, x_idx_eq hX hY hi]
  have h1 := Int.emod_add_ediv i (X * Y)
  have h2 := Int.emod_add_ediv (i % (X * Y)) X
  linarith

theorem idx_of_compose {X Y l b a : Int} (hX : 1 ≤ X) (hY : 1 ≤ Y) (hl : 0 ≤ l)
    (hb0 : 0 ≤ b) (hb : b < Y) (ha0 : 0 ≤ a) (ha : a < X) :
    layer_idx X Y (l * X * Y + b * X + a) = l ∧ y_idx X Y (l * X * Y + b * X + a) = b ∧
      x_idx X Y (l * X * Y + b * X + a) = a := by
  have hXY : 0 < X * Y := layer_size_pos hX hY
  have hbX : 0 ≤ b * X := by positivity
  have hlXY : 0 ≤ l * X * Y := by positivity
  have hi : 0 ≤ l * X * Y + b * X + a := by linarith
  have hr : b * X + a < X * Y := by nlinarith
  have h1 : (l * X * Y + b * X + a) / (X * Y) = l ∧ (l * X * Y + b * X + a) % (X * Y) = b * X + a := by
    rw [Int.ediv_emod_unique hXY]
    refine ⟨by ring, by linarith, hr⟩
  have h2 : (b * X + a) / X = b ∧ (b * X + a) % X = a := by
    rw [Int.ediv_emod_unique (by omega)]
    refine ⟨by ring, ha0, ha⟩
  rw [layer_idx_eq hX hY hi, y_idx_eq hX hY hi, x_idx_eq hX hY hi, h1.1, h1.2, h2.1, h2.2]
  exact ⟨rfl, rfl, rfl⟩

theorem idx_bounds {X Y Z i : Int} (hX : 1 ≤ X) (hY : 1 ≤ Y) (hi : 0 ≤ i)
    (hN : i < X * Y * Z) :
    (0 ≤ layer_idx X Y i ∧ layer_idx X Y i < Z) ∧ (0 ≤ y_idx X Y i ∧ y_idx X Y i < Y) ∧
      (0 ≤ x_idx X Y i ∧ x_idx X Y i < X) := by
  have hXY : 0 < X * Y := layer_size_pos hX hY
  have hX0 : 0 < X := by omega
  have hr0 : 0 ≤ i % (X * Y) := Int.emod_nonneg _ (ne_of_gt hXY)
  have hr1 : i % (X * Y) < X * Y := Int.emod_lt_of_pos _ hXY
  rw [layer_idx_eq hX hY hi, y_idx_eq hX hY hi, x_idx_eq hX hY hi]
  refine ⟨⟨Int.ediv_nonneg hi hXY.le, ?_⟩, ⟨Int.ediv_nonneg hr0 hX0.le, ?_⟩,
    ⟨Int.emod_nonneg _ (ne_of_gt hX0), Int.emod_lt_of_pos _ hX0⟩⟩
  · exact Int.ediv_lt_of_lt_mul hXY (by linarith)
  · exact Int.ediv_lt_of_lt_mul hX0 (by linarith)

/-- Every grid triple in range comes from exactly one instance index in range. -/
theorem existsUnique_instance {X Y Z l b a : Int} (hX : 1 ≤ X) (hY : 1 ≤ Y)
    (hl0 : 0 ≤ l) (hl : l < Z) (hb0 : 0 ≤ b) (hb : b < Y) (ha0 : 0 ≤ a) (ha : a < X) :
    ∃! i : Int, (0 ≤ i ∧ i < X * Y * Z) ∧
      layer_idx X Y i = l ∧ y_idx X Y i = b ∧ x_idx X Y i = a := by
  have hXY : 0 < X * Y := layer_size_pos hX hY
  refine ⟨l * X * Y + b * X + a, ⟨⟨?_, ?_⟩, idx_of_compose hX hY hl0 hb0 hb ha0 ha⟩, ?_⟩
  · have h1 : 0 ≤ l * X * Y := by positivity
    have h2 : 0 ≤ b * X := by positivity
    linarith
  · have h1 : b * X + a < X * Y := by nlinarith
    have h2 : (l + 1) * (X * Y) ≤ Z * (X * Y) :=
      mul_le_mul_of_nonneg_right (by omega) hXY.le
    nlinarith
  · rintro j ⟨⟨hj0, _⟩, hjl, hjb, hja⟩
    have h := idx_recompose hX hY hj0
    rw [hjl, hjb, hja] at h
    exact h

end Shader

/-- C1: over the unbounded integers, for all `CellX, CellY, Layers >= 1` and
`N = CellX*CellY*Layers`, every `gl_InstanceID` in `[0, N)` gets
`layer_idx` in `[0, Layers)`, `y_idx` in `[0, CellY)` and `x_idx` in `[0, CellX)`,
and every triple of such indices is produced by exactly one `gl_InstanceID` in
`[0, N)`: the placement is a bijection between the index space and the grid. -/
theorem C1_placement_bijection (CellX CellY Layers : Int)
    (hX : 1 ≤ CellX) (hY : 1 ≤ CellY) (_hZ : 1 ≤ Layers) :
    (∀ i : Int, 0 ≤ i → i < CellX * CellY * Layers →
      (0 ≤ Shader.layer_idx CellX CellY i ∧ Shader.layer_idx CellX CellY i < Layers) ∧
      (0 ≤ Shader.y_idx CellX CellY i ∧ Shader.y_idx CellX CellY i < CellY) ∧
      (0 ≤ Shader.x_idx CellX CellY i ∧ Shader.x_idx CellX CellY i < CellX)) ∧
    (∀ l b a : Int, 0 ≤ l → l < Layers → 0 ≤ b → b < CellY → 0 ≤ a → a < CellX →
      ∃! i : Int, (0 ≤ i ∧ i < CellX * CellY * Layers) ∧
        Shader.layer_idx CellX CellY i = l ∧ Shader.y_idx CellX CellY i = b ∧
        Shader.x_idx CellX CellY i = a) := by
  refine ⟨fun i hi hN => Shader.idx_bounds hX hY hi hN, ?_⟩
  intro l b a hl0 hl hb0 hb ha0 ha
  exact Shader.existsUnique_instance hX hY hl0 hl hb0 hb ha0 ha

theorem C1_placement_bijection_witness :
    (∀ i : Int, 0 ≤ i → i < 2 * 2 * 1 →
      (0 ≤ Shader.layer_idx 2 2 i ∧ Shader.layer_idx 2 2 i < 1) ∧
      (0 ≤ Shader.y_idx 2 2 i ∧ Shader.y_idx 2 2 i < 2) ∧
      (0 ≤ Shader.x_idx 2 2 i ∧ Shader.x_idx 2 2 i < 2)) ∧
    (∀ l b a : Int, 0 ≤ l → l < 1 → 0 ≤ b → b < 2 → 0 ≤ a → a < 2 →
      ∃! i : Int, (0 ≤ i ∧ i < 2 * 2 * 1) ∧
        Shader.layer_idx 2 2 i = l ∧ Shader.y_idx 2 2 i = b ∧
        Shader.x_idx 2 2 i = a) :=
  C1_placement_bijection 2 2 1 (by decide) (by decide) (by decide)

/-- Over the unbounded integers the decomposition is row-major with `x` fastest. -/
theorem row_major_unbounded {X Y i : Int} (hX : 1 ≤ X) (hY : 1 ≤ Y) (hi : 0 ≤ i) :
    i = Shader.layer_idx X Y i * X * Y + Shader.y_idx X Y i * X + Shader.x_idx X Y i ∧
      Shader.x_idx X Y i = i % X ∧ Shader.y_idx X Y i = (i / X) % Y := by
  have hX0 : 0 < X := by omega
  have hY0 : 0 < Y := by omega
  refine ⟨Shader.idx_recompose hX hY hi, ?_, ?_⟩
  · rw [Shader.x_idx_eq hX hY hi]
    exact Int.emod_emod_of_dvd i (Dvd.intro Y rfl)
  · rw [Shader.y_idx_eq hX hY hi]
    have hq : 0 ≤ i / X := Int.ediv_nonneg hi hX0.le
    have h1 := Int.emod_add_ediv i X
    have h2 := Int.emod_add_ediv (i / X) Y
    have h3 : 0 ≤ i % X := Int.emod_nonneg _ (ne_of_gt hX0)
    have h4 : i % X < X := Int.emod_lt_of_pos _ hX0
    have h5 : 0 ≤ i / X % Y := Int.emod_nonneg _ (ne_of_gt hY0)
    have h6 : i / X % Y < Y := Int.emod_lt_of_pos _ hY0
    have key : i % (X * Y) = i % X + X * (i / X % Y) := by
      have : i / (X * Y) = i / X / Y ∧ i % (X * Y) = i % X + X * (i / X % Y) := by
        rw [Int.ediv_emod_unique (show 0 < X * Y from Shader.layer_size_pos hX hY)]
        refine ⟨?_, by positivity, by nlinarith⟩
        have : X * (i / X) = X * (i / X % Y) + X * Y * (i / X / Y) := by
          rw [mul_assoc, ← mul_add, h2]
        linarith
      exact this.2
    rw [key]
    have : (i % X + X * (i / X % Y)) / X = i / X % Y ∧ (i % X + X * (i / X % Y)) % X = i % X := by
      rw [Int.ediv_emod_unique hX0]
      exact ⟨rfl, h3, h4⟩
    exact this.1

/-! ## The tiling of the screen -/

namespace Shader

theorem step_x_pos {X : Int} (hX : 1 ≤ X) : 0 < step_x X := by
  have h : (0 : ℚ) < (X : ℚ) := by exact_mod_cast (by omega : 0 < X)
  unfold step_x; positivity

theorem step_y_pos {Y : Int} (hY : 1 ≤ Y) : 0 < step_y Y := by
  have h : (0 : ℚ) < (Y : ℚ) := by exact_mod_cast (by omega : 0 < Y)
  unfold step_y; positivity

theorem step_z_pos {Z : Int} (hZ : 1 ≤ Z) : 0 < step_z Z := by
  have h : (0 : ℚ) < (Z : ℚ) := by exact_mod_cast (by omega : 0 < Z)
  unfold step_z; positivity

theorem mul_step_x {X : Int} (hX : 1 ≤ X) : (X : ℚ) * step_x X = 2 := by
  have h : (X : ℚ) ≠ 0 := by exact_mod_cast (by omega : X ≠ 0)
  unfold step_x; field_simp

theorem mul_step_y {Y : Int} (hY : 1 ≤ Y) : (Y : ℚ) * step_y Y = 2 := by
  have h : (Y : ℚ) ≠ 0 := by exact_mod_cast (by omega : Y ≠ 0)
  unfold step_y; field_simp

/-- One coordinate of the placement maps `[-1,1]` onto the interval of cell `a`. -/
theorem axis_image {s : ℚ} (hs : 0 < s) (a t : ℚ) :
    (∃ v : ℚ, (-1 ≤ v ∧ v ≤ 1) ∧ s * a - 1 + (v + 1) * s * (1 / 2) = t) ↔
      (a * s - 1 ≤ t ∧ t ≤ (a + 1) * s - 1) := by
  constructor
  · rintro ⟨v, ⟨h1, h2⟩, rfl⟩
    constructor <;> nlinarith
  · rintro ⟨h1, h2⟩
    refine ⟨(t + 1 - a * s) * 2 / s - 1, ⟨?_, ?_⟩, ?_⟩
    · have : 0 ≤ (t + 1 - a * s) * 2 / s := by
        apply div_nonneg _ hs.le
        linarith
      linarith
    · have : (t + 1 - a * s) * 2 / s ≤ 2 := by
        rw [div_le_iff₀ hs]
        linarith
      linarith
    · field_simp
      ring

theorem placedQuad_eq_cellRect {X Y : Int} (Z i : Int) (hX : 1 ≤ X) (hY : 1 ≤ Y) :
    placedQuad X Y Z i = cellRect X Y (x_idx X Y i) (y_idx X Y i) := by
  ext p
  have hx := axis_image (step_x_pos hX) (x_idx X Y i : ℚ) p.1
  have hy := axis_image (step_y_pos hY) (y_idx X Y i : ℚ) p.2
  simp only [placedQuad, cellRect, gl_Position, Set.mem_setOf_eq]
  rw [← hx, ← hy]
  constructor
  · rintro ⟨v, h1, h2, h3, h4⟩
    exact ⟨⟨v.x, h1, h3⟩, ⟨v.y, h2, h4⟩⟩
  · rintro ⟨⟨vx, h1, h3⟩, ⟨vy, h2, h4⟩⟩
    exact ⟨⟨vx, vy, 0⟩, h1, h2, h3, h4⟩

/-- Every point of `[-1,1]` lies in the interval of one of the `n` cells of an axis. -/
theorem exists_axis_cell {n : Int} (hn : 1 ≤ n) {s : ℚ} (hs : (n : ℚ) * s = 2) {t : ℚ}
    (h1 : -1 ≤ t) (h2 : t ≤ 1) :
    ∃ a : Int, (0 ≤ a ∧ a < n) ∧ (a : ℚ) * s - 1 ≤ t ∧ t ≤ ((a : ℚ) + 1) * s - 1 := by
  have hn0 : (0 : ℚ) < (n : ℚ) := by exact_mod_cast (by omega : 0 < n)
  have hs0 : 0 < s := by
    by_contra h
    push_neg at h
    nlinarith
  rcases eq_or_lt_of_le h2 with h | h
  · refine ⟨n - 1, ⟨by omega, by omega⟩, ?_, ?_⟩
    · push_cast; nlinarith
    · push_cast; nlinarith
  · refine ⟨⌊(t + 1) / s⌋, ⟨?_, ?_⟩, ?_, ?_⟩
    · exact Int.floor_nonneg.mpr (div_nonneg (by linarith) hs0.le)
    · rw [Int.floor_lt, div_lt_iff₀ hs0]
      linarith
    · have := Int.floor_le ((t + 1) / s)
      rw [le_div_iff₀ hs0] at this
      linarith
    · have := Int.lt_floor_add_one ((t + 1) / s)
      rw [div_lt_iff₀ hs0] at this
      linarith

/-- The open intervals of two different cells of an axis do not meet. -/
theorem axis_interior_disjoint {s : ℚ} (hs : 0 < s) {a a' : Int} (h : a ≠ a') {t : ℚ}
    (h1 : (a : ℚ) * s - 1 < t) (h2 : t < ((a : ℚ) + 1) * s - 1)
    (h3 : (a' : ℚ) * s - 1 < t) (h4 : t < ((a' : ℚ) + 1) * s - 1) : False := by
  rcases lt_or_gt_of_ne h with hlt | hgt
  · have : ((a : ℚ) + 1) ≤ (a' : ℚ) := by exact_mod_cast (by omega : a + 1 ≤ a')
    nlinarith
  · have : ((a' : ℚ) + 1) ≤ (a : ℚ) := by exact_mod_cast (by omega : a' + 1 ≤ a)
    nlinarith

end Shader

/-- C3: with exact arithmetic, for all `CellX, CellY, Layers >= 1` the placed quads
of one layer tile the square `[-1,1] x [-1,1]`: the quad of every instance is the
rectangle `[x_idx*step_x - 1, (x_idx+1)*step_x - 1] x [y_idx*step_y - 1,
(y_idx+1)*step_y - 1]` of its cell; the rectangles of two different cells have
disjoint interiors; the rectangles of the cells `x_idx` in `[0, CellX)`, `y_idx` in
`[0, CellY)` cover exactly the square, the last column ending at `1` and the last
row at `1`; and every layer `layer_idx` in `[0, Layers)` has, for every cell,
exactly one instance in range, placed on that cell's rectangle. -/
theorem C3_layer_tiles_ndc_square (CellX CellY Layers : Int)
    (hX : 1 ≤ CellX) (hY : 1 ≤ CellY) (_hZ : 1 ≤ Layers) :
    (∀ i : Int, Shader.placedQuad CellX CellY Layers i =
      Shader.cellRect CellX CellY (Shader.x_idx CellX CellY i) (Shader.y_idx CellX CellY i)) ∧
    (∀ a b a' b' : Int, (a, b) ≠ (a', b') →
      Shader.cellInterior CellX CellY a b ∩ Shader.cellInterior CellX CellY a' b' = ∅) ∧
    (∀ p : ℚ × ℚ, p ∈ Shader.ndcSquare ↔
      ∃ a b : Int, (0 ≤ a ∧ a < CellX) ∧ (0 ≤ b ∧ b < CellY) ∧
        p ∈ Shader.cellRect CellX CellY a b) ∧
    ((((CellX - 1 : Int) : ℚ) + 1) * Shader.step_x CellX - 1 = 1 ∧
      (((CellY - 1 : Int) : ℚ) + 1) * Shader.step_y CellY - 1 = 1) ∧
    (∀ (i : Int) (v : Shader.Vec3),
      (Shader.x_idx CellX CellY i = CellX - 1 → v.x = 1 →
        (Shader.gl_Position CellX CellY Layers i v).x = 1) ∧
      (Shader.y_idx CellX CellY i = CellY - 1 → v.y = 1 →
        (Shader.gl_Position CellX CellY Layers i v).y = 1)) ∧
    (∀ l a b : Int, 0 ≤ l → l < Layers → 0 ≤ a → a < CellX → 0 ≤ b → b < CellY →
      ∃! i : Int, (0 ≤ i ∧ i < CellX * CellY * Layers) ∧
        Shader.layer_idx CellX CellY i = l ∧
        Shader.x_idx CellX CellY i = a ∧ Shader.y_idx CellX CellY i = b ∧
        Shader.placedQuad CellX CellY Layers i = Shader.cellRect CellX CellY a b) := by
  have hsx := Shader.step_x_pos hX
  have hsy := Shader.step_y_pos hY
  have hmx := Shader.mul_step_x hX
  have hmy := Shader.mul_step_y hY
  have hX0 : (0 : ℚ) < (CellX : ℚ) := by exact_mod_cast (by omega : 0 < CellX)
  have hY0 : (0 : ℚ) < (CellY : ℚ) := by exact_mod_cast (by omega : 0 < CellY)
  refine ⟨fun i => Shader.placedQuad_eq_cellRect Layers i hX hY, ?_, ?_, ?_, ?_, ?_⟩
  · intro a b a' b' hne
    ext p
    simp only [Shader.cellInterior, Set.mem_inter_iff, Set.mem_setOf_eq, Set.mem_empty_iff_false,
      iff_false]
    rintro ⟨⟨⟨h1, h2⟩, h3, h4⟩, ⟨h5, h6⟩, h7, h8⟩
    by_cases ha : a = a'
    · have hb : b ≠ b' := by
        intro hb
        exact hne (by rw [ha, hb])
      exact Shader.axis_interior_disjoint hsy hb h3 h4 h7 h8
    · exact Shader.axis_interior_disjoint hsx ha h1 h2 h5 h6
  · intro p
    simp only [Shader.ndcSquare, Shader.cellRect, Set.mem_setOf_eq]
    constructor
    · rintro ⟨⟨h1, h2⟩, h3, h4⟩
      obtain ⟨a, ha, ha1, ha2⟩ := Shader.exists_axis_cell hX hmx h1 h2
      obtain ⟨b, hb, hb1, hb2⟩ := Shader.exists_axis_cell hY hmy h3 h4
      exact ⟨a, b, ha, hb, ⟨ha1, ha2⟩, hb1, hb2⟩
    · rintro ⟨a, b, ⟨ha0, ha⟩, ⟨hb0, hb⟩, ⟨h1, h2⟩, h3, h4⟩
      have ha0' : (0 : ℚ) ≤ (a : ℚ) := by exact_mod_cast ha0
      have hb0' : (0 : ℚ) ≤ (b : ℚ) := by exact_mod_cast hb0
      have ha' : (a : ℚ) + 1 ≤ (CellX : ℚ) := by exact_mod_cast (by omega : a + 1 ≤ CellX)
      have hb' : (b : ℚ) + 1 ≤ (CellY : ℚ) := by exact_mod_cast (by omega : b + 1 ≤ CellY)
      refine ⟨⟨?_, ?_⟩, ?_, ?_⟩ <;> nlinarith
  · constructor
    · push_cast; linarith
    · push_cast; linarith
  · intro i v
    constructor
    · intro h hv
      simp only [Shader.gl_Position, h, hv]
      push_cast; linarith
    · intro h hv
      simp only [Shader.gl_Position, h, hv]
      push_cast; linarith
  · intro l a b hl0 hl ha0 ha hb0 hb
    obtain ⟨i, ⟨hi, h1, h2, h3⟩, huniq⟩ :=
      Shader.existsUnique_instance (Z := Layers) hX hY hl0 hl hb0 hb ha0 ha
    refine ⟨i, ⟨hi, h1, h3, h2, ?_⟩, ?_⟩
    · rw [Shader.placedQuad_eq_cellRect Layers i hX hY, h2, h3]
    · rintro j ⟨hj, g1, g2, g3, _⟩
      exact huniq j ⟨hj, g1, g3, g2⟩

/-- C3 at the grid of 2 by 3 cells in 2 layers. -/
theorem C3_layer_tiles_ndc_square_witness :
    (∀ i : Int, Shader.placedQuad 2 3 2 i =
      Shader.cellRect 2 3 (Shader.x_idx 2 3 i) (Shader.y_idx 2 3 i)) ∧
    (∀ a b a' b' : Int, (a, b) ≠ (a', b') →
      Shader.cellInterior 2 3 a b ∩ Shader.cellInterior 2 3 a' b' = ∅) ∧
    (∀ p : ℚ × ℚ, p ∈ Shader.ndcSquare ↔
      ∃ a b : Int, (0 ≤ a ∧ a < 2) ∧ (0 ≤ b ∧ b < 3) ∧
        p ∈ Shader.cellRect 2 3 a b) ∧
    ((((2 - 1 : Int) : ℚ) + 1) * Shader.step_x 2 - 1 = 1 ∧
      (((3 - 1 : Int) : ℚ) + 1) * Shader.step_y 3 - 1 = 1) ∧
    (∀ (i : Int) (v : Shader.Vec3),
      (Shader.x_idx 2 3 i = 2 - 1 → v.x = 1 →
        (Shader.gl_Position 2 3 2 i v).x = 1) ∧
      (Shader.y_idx 2 3 i = 3 - 1 → v.y = 1 →
        (Shader.gl_Position 2 3 2 i v).y = 1)) ∧
    (∀ l a b : Int, 0 ≤ l → l < 2 → 0 ≤ a → a < 2 → 0 ≤ b → b < 3 →
      ∃! i : Int, (0 ≤ i ∧ i < 2 * 3 * 2) ∧
        Shader.layer_idx 2 3 i = l ∧
        Shader.x_idx 2 3 i = a ∧ Shader.y_idx 2 3 i = b ∧
        Shader.placedQuad 2 3 2 i = Shader.cellRect 2 3 a b) :=
  C3_layer_tiles_ndc_square 2 3 2 (by decide) (by decide) (by decide)

/-! ## Depth of the layers and the corner of a cell -/

namespace Shader

theorem gl_Position_z (X Y Z i : Int) (v : Vec3) :
    (gl_Position X Y Z i v).z = 1 - (layer_idx X Y i : ℚ) / (Z : ℚ) := by
  simp only [gl_Position, step_z]
  ring

theorem int_div_lt_div {Z : Int} (hZ : 1 ≤ Z) {a b : Int} (h : a < b) :
    (a : ℚ) / (Z : ℚ) < (b : ℚ) / (Z : ℚ) := by
  have hZ0 : (0 : ℚ) < (Z : ℚ) := by exact_mod_cast (by omega : 0 < Z)
  have hab : (a : ℚ) < (b : ℚ) := by exact_mod_cast h
  exact div_lt_div_of_pos_right hab hZ0

end Shader

/-- C5: with exact arithmetic, for all `Layers >= 1` the depth written by the
shader is `out_z = 1 - layer_idx/Layers`; it is strictly decreasing in `layer_idx`
(an instance of a lower layer has a strictly greater `out_z` than an instance of a
higher layer), the first layer has `out_z = 1`, and the depths of two successive
layers differ by exactly `1/Layers`. -/
theorem C5_depth_strictly_decreasing (CellX CellY Layers : Int) (hZ : 1 ≤ Layers) :
    (∀ (i : Int) (v : Shader.Vec3), (Shader.gl_Position CellX CellY Layers i v).z =
      1 - (Shader.layer_idx CellX CellY i : ℚ) / (Layers : ℚ)) ∧
    (∀ (i j : Int) (v w : Shader.Vec3),
      Shader.layer_idx CellX CellY i < Shader.layer_idx CellX CellY j →
      (Shader.gl_Position CellX CellY Layers i v).z >
        (Shader.gl_Position CellX CellY Layers j w).z) ∧
    (∀ (i : Int) (v : Shader.Vec3), Shader.layer_idx CellX CellY i = 0 →
      (Shader.gl_Position CellX CellY Layers i v).z = 1) ∧
    (∀ (i j : Int) (v w : Shader.Vec3),
      Shader.layer_idx CellX CellY j = Shader.layer_idx CellX CellY i + 1 →
      (Shader.gl_Position CellX CellY Layers i v).z -
        (Shader.gl_Position CellX CellY Layers j w).z = 1 / (Layers : ℚ)) := by
  refine ⟨fun i v => Shader.gl_Position_z _ _ _ i v, ?_, ?_, ?_⟩
  · intro i j v w h
    rw [Shader.gl_Position_z, Shader.gl_Position_z]
    have := Shader.int_div_lt_div hZ h
    linarith
  · intro i v h
    rw [Shader.gl_Position_z, h]
    simp
  · intro i j v w h
    rw [Shader.gl_Position_z, Shader.gl_Position_z, h]
    push_cast
    ring

/-- C5 on the default grid of 16 by 12 cells in 4 layers. -/
theorem C5_depth_strictly_decreasing_witness :
    (∀ (i : Int) (v : Shader.Vec3), (Shader.gl_Position 16 12 4 i v).z =
      1 - (Shader.layer_idx 16 12 i : ℚ) / ((4 : Int) : ℚ)) ∧
    (∀ (i j : Int) (v w : Shader.Vec3),
      Shader.layer_idx 16 12 i < Shader.layer_idx 16 12 j →
      (Shader.gl_Position 16 12 4 i v).z > (Shader.gl_Position 16 12 4 j w).z) ∧
    (∀ (i : Int) (v : Shader.Vec3), Shader.layer_idx 16 12 i = 0 →
      (Shader.gl_Position 16 12 4 i v).z = 1) ∧
    (∀ (i j : Int) (v w : Shader.Vec3),
      Shader.layer_idx 16 12 j = Shader.layer_idx 16 12 i + 1 →
      (Shader.gl_Position 16 12 4 i v).z - (Shader.gl_Position 16 12 4 j w).z =
        1 / ((4 : Int) : ℚ)) :=
  C5_depth_strictly_decreasing 16 12 4 (by decide)

/-- C6, as stated, fails: on the default grid of 16 by 12 cells in 4 layers, the instance
576 lies in the last layer `layer_idx = 3` and its depth is exactly `1 - (4-1)/4 = 1/4`,
not greater. -/
theorem C6_last_layer_reaches_bound :
    (0 ≤ (576 : Int) ∧ (576 : Int) < 16 * 12 * 4) ∧ Shader.layer_idx 16 12 576 = 4 - 1 ∧
    ¬ ((Shader.gl_Position 16 12 4 576 ⟨-1, -1, 0⟩).z >
        1 - (((4 : Int) : ℚ) - 1) / ((4 : Int) : ℚ)) := by
  refine ⟨by decide, by decide, ?_⟩
  rw [Shader.gl_Position_z, show Shader.layer_idx 16 12 576 = 3 by decide]
  norm_num

/-- C6, amended: with exact arithmetic, for all `Layers >= 1` and every instance in
range, `out_z >= 1 - (Layers-1)/Layers`; the bound is reached exactly on the last
layer `layer_idx = Layers-1`, and `out_z` is strictly greater on every earlier
layer. -/
theorem C6_depth_lower_bound (CellX CellY Layers i : Int) (v : Shader.Vec3)
    (hX : 1 ≤ CellX) (hY : 1 ≤ CellY) (hZ : 1 ≤ Layers)
    (hi : 0 ≤ i) (hN : i < CellX * CellY * Layers) :
    (Shader.gl_Position CellX CellY Layers i v).z ≥
      1 - ((Layers : ℚ) - 1) / (Layers : ℚ) ∧
    ((Shader.gl_Position CellX CellY Layers i v).z = 1 - ((Layers : ℚ) - 1) / (Layers : ℚ) ↔
      Shader.layer_idx CellX CellY i = Layers - 1) ∧
    (Shader.layer_idx CellX CellY i < Layers - 1 →
      (Shader.gl_Position CellX CellY Layers i v).z >
        1 - ((Layers : ℚ) - 1) / (Layers : ℚ)) := by
  have hZ0 : (0 : ℚ) < (Layers : ℚ) := by exact_mod_cast (by omega : 0 < Layers)
  have hl := (Shader.idx_bounds hX hY hi hN).1.2
  have hcast : ((Layers : ℚ) - 1) = ((Layers - 1 : Int) : ℚ) := by push_cast; ring
  rw [Shader.gl_Position_z, hcast]
  refine ⟨?_, ?_, ?_⟩
  · have h : (Shader.layer_idx CellX CellY i : ℚ) ≤ ((Layers - 1 : Int) : ℚ) := by
      exact_mod_cast (by omega : Shader.layer_idx CellX CellY i ≤ Layers - 1)
    have := div_le_div_of_nonneg_right h hZ0.le
    linarith
  · constructor
    · intro h
      have h' : (Shader.layer_idx CellX CellY i : ℚ) / (Layers : ℚ) =
          ((Layers - 1 : Int) : ℚ) / (Layers : ℚ) := by linarith
      rw [div_left_inj' (ne_of_gt hZ0)] at h'
      exact_mod_cast h'
    · intro h
      rw [h]
  · intro h
    have := Shader.int_div_lt_div hZ h
    linarith

/-- C6, amended, at the last instance of the default grid. -/
theorem C6_depth_lower_bound_witness :
    (Shader.gl_Position 16 12 4 767 ⟨1, 1, 0⟩).z ≥ 1 - (((4 : Int) : ℚ) - 1) / ((4 : Int) : ℚ) ∧
    ((Shader.gl_Position 16 12 4 767 ⟨1, 1, 0⟩).z =
        1 - (((4 : Int) : ℚ) - 1) / ((4 : Int) : ℚ) ↔
      Shader.layer_idx 16 12 767 = 4 - 1) ∧
    (Shader.layer_idx 16 12 767 < 4 - 1 →
      (Shader.gl_Position 16 12 4 767 ⟨1, 1, 0⟩).z >
        1 - (((4 : Int) : ℚ) - 1) / ((4 : Int) : ℚ)) :=
  C6_depth_lower_bound 16 12 4 767 ⟨1, 1, 0⟩ (by decide) (by decide) (by decide)
    (by decide) (by decide)

/-- C7: with exact arithmetic, for all `CellX, CellY >= 1` and every instance, the
local vertex `(vx, vy) = (-1, -1)` is placed at `out_x = step_x * x_idx - 1`,
`out_y = step_y * y_idx - 1` with `out_w = 1`, and this point is the lower-left
corner of the instance's quad: it belongs to the quad and no point of the quad
lies to its left or below it. -/
theorem C7_lower_left_corner (CellX CellY Layers i : Int) (vz : ℚ)
    (hX : 1 ≤ CellX) (hY : 1 ≤ CellY) :
    (Shader.gl_Position CellX CellY Layers i ⟨-1, -1, vz⟩).x =
      Shader.step_x CellX * (Shader.x_idx CellX CellY i : ℚ) - 1 ∧
    (Shader.gl_Position CellX CellY Layers i ⟨-1, -1, vz⟩).y =
      Shader.step_y CellY * (Shader.y_idx CellX CellY i : ℚ) - 1 ∧
    (Shader.gl_Position CellX CellY Layers i ⟨-1, -1, vz⟩).w = 1 ∧
    ((Shader.gl_Position CellX CellY Layers i ⟨-1, -1, vz⟩).x,
      (Shader.gl_Position CellX CellY Layers i ⟨-1, -1, vz⟩).y) ∈
        Shader.placedQuad CellX CellY Layers i ∧
    (∀ p ∈ Shader.placedQuad CellX CellY Layers i,
      (Shader.gl_Position CellX CellY Layers i ⟨-1, -1, vz⟩).x ≤ p.1 ∧
      (Shader.gl_Position CellX CellY Layers i ⟨-1, -1, vz⟩).y ≤ p.2) := by
  have hx : (Shader.gl_Position CellX CellY Layers i ⟨-1, -1, vz⟩).x =
      Shader.step_x CellX * (Shader.x_idx CellX CellY i : ℚ) - 1 := by
    simp only [Shader.gl_Position]; ring
  have hy : (Shader.gl_Position CellX CellY Layers i ⟨-1, -1, vz⟩).y =
      Shader.step_y CellY * (Shader.y_idx CellX CellY i : ℚ) - 1 := by
    simp only [Shader.gl_Position]; ring
  refine ⟨hx, hy, rfl, ?_, ?_⟩
  · exact ⟨⟨-1, -1, vz⟩, ⟨le_refl _, by norm_num⟩, ⟨le_refl _, by norm_num⟩, rfl, rfl⟩
  · intro p hp
    rw [Shader.placedQuad_eq_cellRect Layers i hX hY] at hp
    obtain ⟨⟨h1, _⟩, h2, _⟩ := hp
    rw [hx, hy]
    constructor <;> linarith

/-- C7 at the last instance of the 2 by 2 grid. -/
theorem C7_lower_left_corner_witness :
    (Shader.gl_Position 2 2 1 3 ⟨-1, -1, 0⟩).x = Shader.step_x 2 * (Shader.x_idx 2 2 3 : ℚ) - 1 ∧
    (Shader.gl_Position 2 2 1 3 ⟨-1, -1, 0⟩).y = Shader.step_y 2 * (Shader.y_idx 2 2 3 : ℚ) - 1 ∧
    (Shader.gl_Position 2 2 1 3 ⟨-1, -1, 0⟩).w = 1 ∧
    ((Shader.gl_Position 2 2 1 3 ⟨-1, -1, 0⟩).x, (Shader.gl_Position 2 2 1 3 ⟨-1, -1, 0⟩).y) ∈
        Shader.placedQuad 2 2 1 3 ∧
    (∀ p ∈ Shader.placedQuad 2 2 1 3,
      (Shader.gl_Position 2 2 1 3 ⟨-1, -1, 0⟩).x ≤ p.1 ∧
      (Shader.gl_Position 2 2 1 3 ⟨-1, -1, 0⟩).y ≤ p.2) :=
  C7_lower_left_corner 2 2 1 3 0 (by decide) (by decide)

/-! ## The instanced draw call -/

/-- C4, evaluated on the default configuration (no option given, a grid of 16 by
12 cells in 4 layers): `triangle-opengles.c` draws `x*y = 192` instances, not
`CellX*CellY*Layers = 768`, so every instance it draws lies in layer 0 and the
layers 1 to 3 receive no quad; `triangle.c` draws `x*y*z = 768` instances. -/
theorem C4_gles_draws_one_layer_only :
    TriangleGles.parse_options [] = .ok TriangleGles.defaults ∧
    TriangleGles.draw_instancecount TriangleGles.defaults = 192 ∧
    TriangleGles.defaults.x * TriangleGles.defaults.y * TriangleGles.defaults.z = 768 ∧
    (∀ i : Int, 0 ≤ i → i < TriangleGles.draw_instancecount TriangleGles.defaults →
      Shader.layer_idx TriangleGles.defaults.x TriangleGles.defaults.y i = 0) ∧
    Triangle.parse_options [] = .ok Triangle.defaults ∧
    Triangle.draw_instancecount Triangle.defaults =
      Triangle.defaults.x * Triangle.defaults.y * Triangle.defaults.z := by
  refine ⟨rfl, by decide, by decide, ?_, rfl, by decide⟩
  intro i hi hN
  have h192 : TriangleGles.draw_instancecount TriangleGles.defaults = 192 := by decide
  rw [h192] at hN
  show Shader.layer_idx 16 12 i = 0
  rw [Shader.layer_idx_eq (by decide) (by decide) hi]
  exact Int.ediv_eq_zero_of_lt hi (by omega)

/-! ## Validation of the numeric options -/

theorem EXIT_FAILURE_ne_zero : EXIT_FAILURE ≠ 0 := by decide

/-- The function `parse_int` accepts exactly the arguments with a positive `atoi`. -/
theorem parse_int_eq (optarg name : String) :
    parse_int optarg name =
      if 0 < atoi optarg then .ok (atoi optarg)
      else .error
        { status := EXIT_FAILURE, out := [],
          err := ["`" ++ name ++ "` must be a number greater than zero!\n"] } := by
  unfold parse_int
  simp only [gt_iff_lt]

/-- The option loop body of `triangle.c` on a numeric option. -/
theorem triangle_option_step_numeric (c : Triangle.Config) (r : GetoptResult) (name : String)
    (set : Triangle.Config → Int → Triangle.Config)
    (h : Triangle.numeric_flag r.ch = some (name, set)) :
    Triangle.option_step c r =
      if r.optarg = "-" then .ok c
      else if 0 < atoi r.optarg then .ok (set c (atoi r.optarg))
      else .error
        { status := EXIT_FAILURE, out := [],
          err := ["`" ++ name ++ "` must be a number greater than zero!\n"] } := by
  obtain ⟨ch, optarg⟩ := r
  unfold Triangle.numeric_flag at h
  simp only at h ⊢
  split_ifs at h with h1 h2 h3 h4 h5 h6 <;>
    simp only [Option.some.injEq, Prod.mk.injEq] at h <;>
    obtain ⟨rfl, rfl⟩ := h
  all_goals
    first
    | (rcases h1 with rfl | rfl)
    | (rcases h2 with rfl | rfl)
    | (rcases h3 with rfl | rfl)
    | (rcases h4 with rfl | rfl)
    | (rcases h5 with rfl | rfl)
    | (rcases h6 with rfl | rfl)
  all_goals
    by_cases hd : optarg = "-" <;> by_cases ht : 0 < atoi optarg <;>
      simp +decide [Triangle.option_step, hd, ht, parse_int_eq, Except.map, *]

/-- The option loop body of `triangle-opengles.c` on a numeric option. -/
theorem gles_option_step_numeric (c : TriangleGles.Config) (r : GetoptResult)
    (name : String) (set : TriangleGles.Config → Int → TriangleGles.Config)
    (h : TriangleGles.numeric_flag r.ch = some (name, set)) :
    TriangleGles.option_step c r =
      if r.optarg = "-" then .ok c
      else if 0 < atoi r.optarg then .ok (set c (atoi r.optarg))
      else .error
        { status := EXIT_FAILURE, out := [],
          err := ["`" ++ name ++ "` must be a number greater than zero!\n"] } := by
  obtain ⟨ch, optarg⟩ := r
  unfold TriangleGles.numeric_flag at h
  simp only at h ⊢
  split_ifs at h with h1 h2 h3 h4 h5 <;>
    simp only [Option.some.injEq, Prod.mk.injEq] at h <;>
    obtain ⟨rfl, rfl⟩ := h
  all_goals
    first
    | (rcases h1 with rfl | rfl)
    | (rcases h2 with rfl | rfl)
    | (rcases h3 with rfl | rfl)
    | (rcases h4 with rfl | rfl)
    | (rcases h5 with rfl | rfl)
  all_goals
    by_cases hd : optarg = "-" <;> by_cases ht : 0 < atoi optarg <;>
      simp +decide [TriangleGles.option_step, hd, ht, parse_int_eq, Except.map, *]

/-- C8, as stated, fails: neither `-` nor `12abc` is the decimal text of a positive
integer, yet `--width -` is accepted and leaves the width unchanged, and
`--width 12abc` is accepted and sets the width to 12; neither exits. -/
theorem C8_dash_and_digit_prefix_accepted :
    (isPositiveDecimalText "-" = false ∧
      Triangle.option_step Triangle.defaults ⟨Triangle.WINDOW_WIDTH, "-"⟩ =
        .ok Triangle.defaults ∧
      TriangleGles.option_step TriangleGles.defaults ⟨TriangleGles.WINDOW_WIDTH, "-"⟩ =
        .ok TriangleGles.defaults) ∧
    (isPositiveDecimalText "12abc" = false ∧
      Triangle.option_step Triangle.defaults ⟨Triangle.WINDOW_WIDTH, "12abc"⟩ =
        .ok { Triangle.defaults with width := 12 } ∧
      TriangleGles.option_step TriangleGles.defaults ⟨TriangleGles.WINDOW_WIDTH, "12abc"⟩ =
        .ok { TriangleGles.defaults with width := 12 }) :=
  ⟨⟨by decide, rfl, rfl⟩, by decide, rfl, rfl⟩

/-- C8, amended: for every numeric option (`--width`, `--height`, `--cells-in-x`,
`--cells-in-y`, `--layers` in both programs and `--frames` in `triangle.c`, by
their long or short form) the argument `-` is skipped and leaves the
configuration unchanged; any other argument whose `atoi` value is not strictly
greater than zero (such as `0`, `-5`, `abc`) makes the step write
`<name> must be a number greater than zero!` to the standard error stream and
exit with the non-zero status `EXIT_FAILURE`; and any other argument with a
positive `atoi` value (such as `12abc`, read as 12) is accepted and stored. -/
theorem C8_numeric_flag_validation (r : GetoptResult) (name : String) :
    (∀ (c : Triangle.Config) (set : Triangle.Config → Int → Triangle.Config),
      Triangle.numeric_flag r.ch = some (name, set) →
      Triangle.option_step c r =
        if r.optarg = "-" then .ok c
        else if 0 < atoi r.optarg then .ok (set c (atoi r.optarg))
        else .error
          { status := EXIT_FAILURE, out := [],
            err := ["`" ++ name ++ "` must be a number greater than zero!\n"] }) ∧
    (∀ (c : TriangleGles.Config) (set : TriangleGles.Config → Int → TriangleGles.Config),
      TriangleGles.numeric_flag r.ch = some (name, set) →
      TriangleGles.option_step c r =
        if r.optarg = "-" then .ok c
        else if 0 < atoi r.optarg then .ok (set c (atoi r.optarg))
        else .error
          { status := EXIT_FAILURE, out := [],
            err := ["`" ++ name ++ "` must be a number greater than zero!\n"] }) ∧
    EXIT_FAILURE ≠ 0 ∧
    ([chr 'w', Triangle.WINDOW_WIDTH, chr 'g', Triangle.WINDOW_HEIGHT, chr 'x',
        Triangle.CELLS_IN_X, chr 'y', Triangle.CELLS_IN_Y, chr 'z', Triangle.LAYERS, chr 'f',
        Triangle.FRAMES].map (fun ch => (Triangle.numeric_flag ch).map Prod.fst) =
      [some "width", some "width", some "height", some "height", some "cells-in-x",
        some "cells-in-x", some "cells-in-y", some "cells-in-y", some "layers", some "layers",
        some "frames", some "frames"]) ∧
    ([chr 'w', TriangleGles.WINDOW_WIDTH, chr 'g', TriangleGles.WINDOW_HEIGHT, chr 'x',
        TriangleGles.CELLS_IN_X, chr 'y', TriangleGles.CELLS_IN_Y, chr 'z',
        TriangleGles.LAYERS].map (fun ch => (TriangleGles.numeric_flag ch).map Prod.fst) =
      [some "width", some "width", some "height", some "height", some "cells-in-x",
        some "cells-in-x", some "cells-in-y", some "cells-in-y", some "layers",
        some "layers"]) ∧
    (atoi "0" = 0 ∧ atoi "-5" = -5 ∧ atoi "abc" = 0 ∧ atoi "12abc" = 12) :=
  ⟨fun c set h => triangle_option_step_numeric c r name set h,
    fun c set h => gles_option_step_numeric c r name set h,
    EXIT_FAILURE_ne_zero, by decide, by decide, by decide⟩

/-- C8, amended, on `--width 0`, `--layers -5` and `--frames abc`: each exits with
`EXIT_FAILURE` after its message. -/
theorem C8_numeric_flag_validation_witness :
    Triangle.option_step Triangle.defaults ⟨Triangle.WINDOW_WIDTH, "0"⟩ =
      .error { status := EXIT_FAILURE, out := [],
               err := ["`width` must be a number greater than zero!\n"] } ∧
    TriangleGles.option_step TriangleGles.defaults ⟨chr 'z', "-5"⟩ =
      .error { status := EXIT_FAILURE, out := [],
               err := ["`layers` must be a number greater than zero!\n"] } ∧
    Triangle.option_step Triangle.defaults ⟨Triangle.FRAMES, "abc"⟩ =
      .error { status := EXIT_FAILURE, out := [],
               err := ["`frames` must be a number greater than zero!\n"] } :=
  ⟨((C8_numeric_flag_validation ⟨Triangle.WINDOW_WIDTH, "0"⟩ "width").1 Triangle.defaults
      (fun c t => { c with width := t }) rfl).trans rfl,
    ((C8_numeric_flag_validation ⟨chr 'z', "-5"⟩ "layers").2.1 TriangleGles.defaults
      (fun c t => { c with z := t }) rfl).trans rfl,
    ((C8_numeric_flag_validation ⟨Triangle.FRAMES, "abc"⟩ "frames").1 Triangle.defaults
      (fun c t => { c with frames := t }) rfl).trans rfl⟩

/-! ## The invariant of the configuration -/

theorem parse_int_map_ok {α : Type} {optarg name : String} {f : Int → α} {a : α}
    (h : (parse_int optarg name).map f = .ok a) : 0 < atoi optarg ∧ a = f (atoi optarg) := by
  rw [parse_int_eq] at h
  by_cases ht : 0 < atoi optarg
  · rw [if_pos ht] at h
    simp only [Except.map, Except.ok.injEq] at h
    exact ⟨ht, h.symm⟩
  · rw [if_neg ht] at h
    simp [Except.map] at h

theorem triangle_defaults_valid : Triangle.defaults.valid := by decide

theorem gles_defaults_valid : TriangleGles.defaults.valid := by decide

/-- One iteration of the option loop of `triangle.c` keeps the invariant. -/
theorem triangle_option_step_valid {c c' : Triangle.Config} {r : GetoptResult}
    (h : Triangle.option_step c r = .ok c') (hv : c.valid) : c'.valid := by
  have numeric : ∀ (name : String) (f : Int → Triangle.Config),
      (∀ t, 0 < t → (f t).valid) →
      (if r.optarg ≠ "-" then (parse_int r.optarg name).map f else .ok c) = .ok c' →
      c'.valid := by
    intro name f hf h
    by_cases hd : r.optarg ≠ "-"
    · rw [if_pos hd] at h
      obtain ⟨ht, rfl⟩ := parse_int_map_ok h
      exact hf _ ht
    · rw [if_neg hd] at h
      simp only [Except.ok.injEq] at h
      exact h ▸ hv
  have keep : ∀ {c1 : Triangle.Config}, c1.valid →
      (Except.ok c1 : Except Exit Triangle.Config) = .ok c' → c'.valid := by
    intro c1 h1 h
    simp only [Except.ok.injEq] at h
    exact h ▸ h1
  have hv' := hv
  simp only [Triangle.Config.valid] at hv'
  unfold Triangle.option_step at h
  by_cases h1 : r.ch = chr 'w' ∨ r.ch = Triangle.WINDOW_WIDTH
  · rw [if_pos h1] at h
    exact numeric _ _ (fun t ht => by simp only [Triangle.Config.valid]; omega) h
  rw [if_neg h1] at h
  by_cases h2 : r.ch = chr 'g' ∨ r.ch = Triangle.WINDOW_HEIGHT
  · rw [if_pos h2] at h
    exact numeric _ _ (fun t ht => by simp only [Triangle.Config.valid]; omega) h
  rw [if_neg h2] at h
  by_cases h3 : r.ch = chr 'x' ∨ r.ch = Triangle.CELLS_IN_X
  · rw [if_pos h3] at h
    exact numeric _ _ (fun t ht => by simp only [Triangle.Config.valid]; omega) h
  rw [if_neg h3] at h
  by_cases h4 : r.ch = chr 'y' ∨ r.ch = Triangle.CELLS_IN_Y
  · rw [if_pos h4] at h
    exact numeric _ _ (fun t ht => by simp only [Triangle.Config.valid]; omega) h
  rw [if_neg h4] at h
  by_cases h5 : r.ch = chr 'z' ∨ r.ch = Triangle.LAYERS
  · rw [if_pos h5] at h
    exact numeric _ _ (fun t ht => by simp only [Triangle.Config.valid]; omega) h
  rw [if_neg h5] at h
  by_cases h6 : r.ch = Triangle.ENABLE_DEPTH_TEST
  · rw [if_pos h6] at h
    exact keep (by simp only [Triangle.Config.valid]; omega) h
  rw [if_neg h6] at h
  by_cases h7 : r.ch = Triangle.ENABLE_CULL_FACE
  · rw [if_pos h7] at h
    exact keep (by simp only [Triangle.Config.valid]; omega) h
  rw [if_neg h7] at h
  by_cases h8 : r.ch = Triangle.POLYGON_MODE
  · rw [if_pos h8] at h
    by_cases p1 : r.optarg = "point"
    · rw [if_pos p1] at h
      exact keep (by simp only [Triangle.Config.valid]; omega) h
    rw [if_neg p1] at h
    by_cases p2 : r.optarg = "line"
    · rw [if_pos p2] at h
      exact keep (by simp only [Triangle.Config.valid]; omega) h
    rw [if_neg p2] at h
    by_cases p3 : r.optarg = "fill"
    · rw [if_pos p3] at h
      exact keep (by simp only [Triangle.Config.valid]; omega) h
    rw [if_neg p3] at h
    simp only [reduceCtorEq] at h
  rw [if_neg h8] at h
  by_cases h9 : r.ch = chr 'f' ∨ r.ch = Triangle.FRAMES
  · rw [if_pos h9] at h
    exact numeric _ _ (fun t ht => by simp only [Triangle.Config.valid]; omega) h
  rw [if_neg h9] at h
  by_cases h10 : r.ch = chr 'h' ∨ r.ch = Triangle.HELP
  · rw [if_pos h10] at h
    simp only [reduceCtorEq] at h
  · rw [if_neg h10] at h
    simp only [reduceCtorEq] at h

/-- One iteration of the option loop of `triangle-opengles.c` keeps the invariant. -/
theorem gles_option_step_valid {c c' : TriangleGles.Config} {r : GetoptResult}
    (h : TriangleGles.option_step c r = .ok c') (hv : c.valid) : c'.valid := by
  have numeric : ∀ (name : String) (f : Int → TriangleGles.Config),
      (∀ t, 0 < t → (f t).valid) →
      (if r.optarg ≠ "-" then (parse_int r.optarg name).map f else .ok c) = .ok c' →
      c'.valid := by
    intro name f hf h
    by_cases hd : r.optarg ≠ "-"
    · rw [if_pos hd] at h
      obtain ⟨ht, rfl⟩ := parse_int_map_ok h
      exact hf _ ht
    · rw [if_neg hd] at h
      simp only [Except.ok.injEq] at h
      exact h ▸ hv
  have keep : ∀ {c1 : TriangleGles.Config}, c1.valid →
      (Except.ok c1 : Except Exit TriangleGles.Config) = .ok c' → c'.valid := by
    intro c1 h1 h
    simp only [Except.ok.injEq] at h
    exact h ▸ h1
  have hv' := hv
  simp only [TriangleGles.Config.valid] at hv'
  unfold TriangleGles.option_step at h
  by_cases h1 : r.ch = chr 'w' ∨ r.ch = TriangleGles.WINDOW_WIDTH
  · rw [if_pos h1] at h
    exact numeric _ _ (fun t ht => by simp only [TriangleGles.Config.valid]; omega) h
  rw [if_neg h1] at h
  by_cases h2 : r.ch = chr 'g' ∨ r.ch = TriangleGles.WINDOW_HEIGHT
  · rw [if_pos h2] at h
    exact numeric _ _ (fun t ht => by simp only [TriangleGles.Config.valid]; omega) h
  rw [if_neg h2] at h
  by_cases h3 : r.ch = chr 'x' ∨ r.ch = TriangleGles.CELLS_IN_X
  · rw [if_pos h3] at h
    exact numeric _ _ (fun t ht => by simp only [TriangleGles.Config.valid]; omega) h
  rw [if_neg h3] at h
  by_cases h4 : r.ch = chr 'y' ∨ r.ch = TriangleGles.CELLS_IN_Y
  · rw [if_pos h4] at h
    exact numeric _ _ (fun t ht => by simp only [TriangleGles.Config.valid]; omega) h
  rw [if_neg h4] at h
  by_cases h5 : r.ch = chr 'z' ∨ r.ch = TriangleGles.LAYERS
  · rw [if_pos h5] at h
    exact numeric _ _ (fun t ht => by simp only [TriangleGles.Config.valid]; omega) h
  rw [if_neg h5] at h
  by_cases h10 : r.ch = chr 'h' ∨ r.ch = TriangleGles.HELP
  · rw [if_pos h10] at h
    simp only [reduceCtorEq] at h
  · rw [if_neg h10] at h
    simp only [reduceCtorEq] at h

theorem triangle_option_loop_valid (rs : List GetoptResult) :
    ∀ {c c' : Triangle.Config}, Triangle.option_loop c rs = .ok c' → c.valid → c'.valid := by
  induction rs with
  | nil =>
    intro c c' h hv
    simp only [Triangle.option_loop, Except.ok.injEq] at h
    exact h ▸ hv
  | cons r rs ih =>
    intro c c' h hv
    simp only [Triangle.option_loop] at h
    cases hs : Triangle.option_step c r with
    | error e => rw [hs] at h; simp at h
    | ok c1 =>
      rw [hs] at h
      exact ih h (triangle_option_step_valid hs hv)

theorem gles_option_loop_valid (rs : List GetoptResult) :
    ∀ {c c' : TriangleGles.Config},
      TriangleGles.option_loop c rs = .ok c' → c.valid → c'.valid := by
  induction rs with
  | nil =>
    intro c c' h hv
    simp only [TriangleGles.option_loop, Except.ok.injEq] at h
    exact h ▸ hv
  | cons r rs ih =>
    intro c c' h hv
    simp only [TriangleGles.option_loop] at h
    cases hs : TriangleGles.option_step c r with
    | error e => rw [hs] at h; simp at h
    | ok c1 =>
      rw [hs] at h
      exact ih h (gles_option_step_valid hs hv)

/-- A run of the option loop that completes has completed on every prefix. -/
theorem triangle_option_loop_prefix (pre suf : List GetoptResult) :
    ∀ {c c' : Triangle.Config}, Triangle.option_loop c (pre ++ suf) = .ok c' →
      ∃ c1, Triangle.option_loop c pre = .ok c1 ∧ Triangle.option_loop c1 suf = .ok c' := by
  induction pre with
  | nil => intro c c' h; exact ⟨c, rfl, h⟩
  | cons r rs ih =>
    intro c c' h
    simp only [List.cons_append, Triangle.option_loop] at h ⊢
    cases hs : Triangle.option_step c r with
    | error e => rw [hs] at h; simp at h
    | ok c1 =>
      rw [hs] at h
      exact ih h

theorem gles_option_loop_prefix (pre suf : List GetoptResult) :
    ∀ {c c' : TriangleGles.Config}, TriangleGles.option_loop c (pre ++ suf) = .ok c' →
      ∃ c1, TriangleGles.option_loop c pre = .ok c1 ∧
        TriangleGles.option_loop c1 suf = .ok c' := by
  induction pre with
  | nil => intro c c' h; exact ⟨c, rfl, h⟩
  | cons r rs ih =>
    intro c c' h
    simp only [List.cons_append, TriangleGles.option_loop] at h ⊢
    cases hs : TriangleGles.option_step c r with
    | error e => rw [hs] at h; simp at h
    | ok c1 =>
      rw [hs] at h
      exact ih h

/-- C9: whatever `getopt_long` returns (options given, omitted, repeated, or given
the argument `-`), when the option parsing of either program completes without
exiting the configuration has `width > 0`, `height > 0`, `CellX >= 1`,
`CellY >= 1`, `Layers >= 1` (and `frames > 0` in `triangle.c`); and the same holds
after every iteration of the option loop: every prefix of the run has completed
with a configuration that satisfies the invariant. -/
theorem C9_configuration_invariant :
    (∀ (rs : List GetoptResult) (c : Triangle.Config),
      Triangle.parse_options rs = .ok c →
        0 < c.width ∧ 0 < c.height ∧ 1 ≤ c.x ∧ 1 ≤ c.y ∧ 1 ≤ c.z ∧ 0 < c.frames) ∧
    (∀ (pre suf : List GetoptResult) (c : Triangle.Config),
      Triangle.parse_options (pre ++ suf) = .ok c →
        ∃ c1, Triangle.parse_options pre = .ok c1 ∧ Triangle.option_loop c1 suf = .ok c ∧
          c1.valid) ∧
    (∀ (rs : List GetoptResult) (c : TriangleGles.Config),
      TriangleGles.parse_options rs = .ok c →
        0 < c.width ∧ 0 < c.height ∧ 1 ≤ c.x ∧ 1 ≤ c.y ∧ 1 ≤ c.z) ∧
    (∀ (pre suf : List GetoptResult) (c : TriangleGles.Config),
      TriangleGles.parse_options (pre ++ suf) = .ok c →
        ∃ c1, TriangleGles.parse_options pre = .ok c1 ∧
          TriangleGles.option_loop c1 suf = .ok c ∧ c1.valid) := by
  refine ⟨?_, ?_, ?_, ?_⟩
  · intro rs c h
    exact triangle_option_loop_valid rs h triangle_defaults_valid
  · intro pre suf c h
    obtain ⟨c1, h1, h2⟩ := triangle_option_loop_prefix pre suf h
    exact ⟨c1, h1, h2, triangle_option_loop_valid pre h1 triangle_defaults_valid⟩
  · intro rs c h
    exact gles_option_loop_valid rs h gles_defaults_valid
  · intro pre suf c h
    obtain ⟨c1, h1, h2⟩ := gles_option_loop_prefix pre suf h
    exact ⟨c1, h1, h2, gles_option_loop_valid pre h1 gles_defaults_valid⟩

/-! ## The render loop of the timed variant -/

theorem toInt32_of_range {v : Int} (h0 : -(2 ^ 31) ≤ v) (h1 : v < 2 ^ 31) : toInt32 v = v := by
  unfold toInt32
  omega

namespace Triangle

/-- With enough fuel the render loop ends, and the frame counter stays between
its starting value and `frames`. -/
theorem render_loop_terminates (c : Config) (env : Env) :
    ∀ (fuel : Nat) (s : LoopState), s.fc ≤ c.frames → c.frames - s.fc ≤ fuel →
      ∃ s', render_loop c env fuel s = some s' ∧ s.fc ≤ s'.fc ∧ s'.fc ≤ c.frames ∧
        s'.draws.length ≤ s.draws.length + (c.frames - s.fc).toNat := by
  intro fuel
  induction fuel with
  | zero =>
    intro s h1 h2
    have hfc : ¬ s.fc < c.frames := by omega
    refine ⟨s, ?_, le_refl _, h1, by omega⟩
    unfold render_loop
    simp [hfc]
  | succ n ih =>
    intro s h1 h2
    unfold render_loop
    by_cases hc : (!env.shouldClose s.fc && decide (s.fc < c.frames)) = true
    · rw [if_pos hc]
      have hlt : s.fc < c.frames := by
        simp only [Bool.and_eq_true, decide_eq_true_eq] at hc
        exact hc.2
      by_cases ha : (!env.isAvailable s.fc) = true
      · simp only [ha, if_true]
        refine ⟨_, rfl, le_refl _, h1, ?_⟩
        simp only [List.length_append, List.length_singleton]
        omega
      · simp only [ha]
        obtain ⟨s', hs', h3, h4, h5⟩ := ih
          { fc := s.fc + 1, total_ns := s.total_ns + env.ns s.fc,
            draws := s.draws ++ [draw_instancecount c], err := s.err }
          (by show s.fc + 1 ≤ c.frames; omega) (by show c.frames - (s.fc + 1) ≤ (n : Int); omega)
        refine ⟨s', hs', ?_, h4, ?_⟩
        · have : s.fc + 1 ≤ s'.fc := h3
          omega
        · simp only [List.length_append, List.length_singleton] at h5
          omega
    · rw [if_neg hc]
      exact ⟨s, rfl, le_refl _, h1, by omega⟩

/-- When the window never asks to close and every query result is available, the
loop runs until `fc = frames` and issues one draw call per remaining frame. -/
theorem render_loop_undisturbed (c : Config) (env : Env)
    (hclose : ∀ n, env.shouldClose n = false) (havail : ∀ n, env.isAvailable n = true) :
    ∀ (fuel : Nat) (s : LoopState), s.fc ≤ c.frames → c.frames - s.fc ≤ fuel →
      ∃ s', render_loop c env fuel s = some s' ∧ s'.fc = c.frames ∧
        s'.draws = s.draws ++ List.replicate (c.frames - s.fc).toNat (draw_instancecount c) ∧
        s'.err = s.err := by
  intro fuel
  induction fuel with
  | zero =>
    intro s h1 h2
    have hfc : ¬ s.fc < c.frames := by omega
    have h0 : (c.frames - s.fc).toNat = 0 := by omega
    refine ⟨s, ?_, by omega, by simp [h0], rfl⟩
    unfold render_loop
    simp [hfc]
  | succ n ih =>
    intro s h1 h2
    unfold render_loop
    by_cases hlt : s.fc < c.frames
    · obtain ⟨s', hs', h3, h4, h5⟩ := ih
        { fc := s.fc + 1, total_ns := s.total_ns + env.ns s.fc,
          draws := s.draws ++ [draw_instancecount c], err := s.err }
        (by show s.fc + 1 ≤ c.frames; omega) (by show c.frames - (s.fc + 1) ≤ (n : Int); omega)
      refine ⟨s', ?_, h3, ?_, h5⟩
      · simp only [hclose, havail, hlt, Bool.not_false, Bool.not_true, decide_True,
          Bool.and_self, if_true, Bool.false_eq_true, if_false]
        exact hs'
      · have hk : (c.frames - s.fc).toNat = (c.frames - (s.fc + 1)).toNat + 1 := by omega
        rw [h4, hk, List.replicate_succ, List.append_assoc]
        rfl
    · have h0 : (c.frames - s.fc).toNat = 0 := by omega
      refine ⟨s, ?_, by omega, by simp [h0], rfl⟩
      simp [hlt]

/-- The products of the draw call and of the report are exact when they fit in an
`int`. -/
theorem draw_instancecount_exact {c : Config} (hc : c.valid)
    (hfit : c.x * c.y * c.z < 2 ^ 31) : draw_instancecount c = c.x * c.y * c.z := by
  obtain ⟨_, _, hx, hy, hz, _⟩ := hc
  have hxy1 : 1 ≤ c.x * c.y := by nlinarith
  have hxy : c.x * c.y ≤ c.x * c.y * c.z := by nlinarith
  unfold draw_instancecount mulInt32
  rw [toInt32_of_range (v := c.x * c.y) (by omega) (by omega),
    toInt32_of_range (v := c.x * c.y * c.z) (by omega) (by omega)]

theorem triangles_exact {c : Config} (hc : c.valid)
    (hfit : 2 * c.x * c.y * c.z < 2 ^ 31) : triangles c = 2 * c.x * c.y * c.z := by
  obtain ⟨_, _, hx, hy, hz, _⟩ := hc
  have h2x : 2 ≤ 2 * c.x := by omega
  have h2xy : 2 * c.x ≤ 2 * c.x * c.y := by nlinarith
  have h2xyz : 2 * c.x * c.y ≤ 2 * c.x * c.y * c.z := by nlinarith
  unfold triangles mulInt32
  rw [toInt32_of_range (v := 2 * c.x) (by omega) (by omega),
    toInt32_of_range (v := 2 * c.x * c.y) (by omega) (by omega),
    toInt32_of_range (v := 2 * c.x * c.y * c.z) (by omega) (by omega)]

end Triangle

/-- C10, as stated, fails: the options `--cells-in-x 65536 --cells-in-y 65536
--frames 1` are accepted and give `CellX*CellY*Layers = 2^34`, which no 32-bit
`int` holds; with a window that never asks to close and an available query
result, the single draw call is issued with `x*y*z` reduced to the `int` of the
program, which is 0 instances, and the triangle count printed is 0. -/
theorem C10_instance_count_exceeds_int :
    Triangle.parse_options
        [⟨Triangle.CELLS_IN_X, "65536"⟩, ⟨Triangle.CELLS_IN_Y, "65536"⟩,
          ⟨Triangle.FRAMES, "1"⟩] =
      .ok { Triangle.defaults with x := 65536, y := 65536, frames := 1 } ∧
    ({ Triangle.defaults with x := 65536, y := 65536, frames := 1 } : Triangle.Config).x *
        ({ Triangle.defaults with x := 65536, y := 65536, frames := 1 } : Triangle.Config).y *
        ({ Triangle.defaults with x := 65536, y := 65536, frames := 1 } : Triangle.Config).z =
      2 ^ 34 ∧
    Triangle.run_render_loop { Triangle.defaults with x := 65536, y := 65536, frames := 1 }
        ⟨fun _ => false, fun _ => true, fun _ => 0⟩ =
      some { fc := 1, total_ns := 0, draws := [0], err := [] } ∧
    Triangle.triangles { Triangle.defaults with x := 65536, y := 65536, frames := 1 } = 0 :=
  ⟨rfl, by decide, by decide, by decide⟩

/-- C10, amended: in the timed variant, for every configuration that satisfies the
invariant of the option parsing, every run of the render loop ends with a
frame counter between 0 and `frames`. If moreover the window never asks to
close and every timer query result is available, the loop ends with
`fc = frames` after exactly `frames` draw calls and nothing written to the
standard error stream; each draw call instances `CellX*CellY*Layers` quads
provided that product fits in a 32-bit `int`, and the triangle count printed is
`2*CellX*CellY*Layers` provided that product fits in a 32-bit `int`. -/
theorem C10_timed_render_loop (c : Triangle.Config) (env : Triangle.Env) (hc : c.valid) :
    (∃ s, Triangle.run_render_loop c env = some s ∧ 0 ≤ s.fc ∧ s.fc ≤ c.frames) ∧
    ((∀ n, env.shouldClose n = false) → (∀ n, env.isAvailable n = true) →
      ∃ s, Triangle.run_render_loop c env = some s ∧ s.fc = c.frames ∧
        (s.draws.length : Int) = c.frames ∧ s.err = [] ∧
        (c.x * c.y * c.z < 2 ^ 31 → ∀ d ∈ s.draws, d = c.x * c.y * c.z) ∧
        (2 * c.x * c.y * c.z < 2 ^ 31 → Triangle.triangles c = 2 * c.x * c.y * c.z)) := by
  have hfr : 0 < c.frames := hc.2.2.2.2.2
  have hfuel : c.frames - Triangle.LoopState.init.fc ≤ (c.frames.toNat : Int) := by
    show c.frames - 0 ≤ (c.frames.toNat : Int)
    omega
  have hinit : Triangle.LoopState.init.fc ≤ c.frames := by
    show (0 : Int) ≤ c.frames
    omega
  constructor
  · obtain ⟨s, hs, h1, h2, _⟩ :=
      Triangle.render_loop_terminates c env c.frames.toNat Triangle.LoopState.init hinit hfuel
    exact ⟨s, hs, h1, h2⟩
  · intro hclose havail
    obtain ⟨s, hs, h1, h2, h3⟩ :=
      Triangle.render_loop_undisturbed c env hclose havail c.frames.toNat
        Triangle.LoopState.init hinit hfuel
    refine ⟨s, hs, h1, ?_, h3, ?_, fun hfit => Triangle.triangles_exact hc hfit⟩
    · rw [h2]
      simp only [Triangle.LoopState.init, List.nil_append, List.length_replicate]
      omega
    · intro hfit d hd
      rw [h2] at hd
      simp only [Triangle.LoopState.init, List.nil_append] at hd
      rw [(List.mem_replicate.mp hd).2]
      exact Triangle.draw_instancecount_exact hc hfit

/-- C10, amended, on `--frames 10 --cells-in-x 4 --cells-in-y 3 --layers 2`: 10 draw
calls of 24 instances each and a triangle count of 48. -/
theorem C10_timed_render_loop_witness :
    Triangle.parse_options
        [⟨Triangle.FRAMES, "10"⟩, ⟨Triangle.CELLS_IN_X, "4"⟩, ⟨Triangle.CELLS_IN_Y, "3"⟩,
          ⟨Triangle.LAYERS, "2"⟩] =
      .ok { Triangle.defaults with frames := 10, x := 4, y := 3, z := 2 } ∧
    ∃ s, Triangle.run_render_loop { Triangle.defaults with frames := 10, x := 4, y := 3, z := 2 }
          ⟨fun _ => false, fun _ => true, fun n => n.toNat⟩ = some s ∧
      s.fc = 10 ∧ (s.draws.length : Int) = 10 ∧ s.err = [] ∧ (∀ d ∈ s.draws, d = 24) ∧
      Triangle.triangles { Triangle.defaults with frames := 10, x := 4, y := 3, z := 2 } = 48 := by
  refine ⟨rfl, ?_⟩
  obtain ⟨s, hs, h1, h2, h3, h4, h5⟩ :=
    (C10_timed_render_loop { Triangle.defaults with frames := 10, x := 4, y := 3, z := 2 }
      ⟨fun _ => false, fun _ => true, fun n => n.toNat⟩ (by decide)).2
      (fun _ => rfl) (fun _ => rfl)
  exact ⟨s, hs, h1, h2, h3, h4 (by decide), h5 (by decide)⟩

/-! ## The polygon mode -/

/-- The case `POLYGON_MODE` of the option loop body of `triangle.c`. -/
theorem triangle_option_step_polygon_mode (c : Triangle.Config) (optarg : String) :
    Triangle.option_step c ⟨Triangle.POLYGON_MODE, optarg⟩ =
      if optarg = "point" then .ok { c with polygon_mode := Triangle.GL_POINT }
      else if optarg = "line" then .ok { c with polygon_mode := Triangle.GL_LINE }
      else if optarg = "fill" then .ok { c with polygon_mode := Triangle.GL_FILL }
      else .error
        { status := EXIT_FAILURE, out := [],
          err := ["'--polygon-mode' must be 'point', 'line' or 'fill'!\n"] } := by
  simp +decide [Triangle.option_step]

/-- What one iteration of the option loop of `triangle.c` does to the polygon
mode: only the option `POLYGON_MODE` changes it, to the value its argument
names. -/
theorem triangle_option_step_polygon {c c' : Triangle.Config} {r : GetoptResult}
    (h : Triangle.option_step c r = .ok c') :
    (r.ch ≠ Triangle.POLYGON_MODE ∧ c'.polygon_mode = c.polygon_mode) ∨
    (r.ch = Triangle.POLYGON_MODE ∧
      ((r.optarg = "point" ∧ c'.polygon_mode = Triangle.GL_POINT) ∨
        (r.optarg = "line" ∧ c'.polygon_mode = Triangle.GL_LINE) ∨
        (r.optarg = "fill" ∧ c'.polygon_mode = Triangle.GL_FILL))) := by
  have numeric : ∀ (name : String) (f : Int → Triangle.Config),
      (if r.optarg ≠ "-" then (parse_int r.optarg name).map f else .ok c) = .ok c' →
      (∀ t, (f t).polygon_mode = c.polygon_mode) →
      c'.polygon_mode = c.polygon_mode := by
    intro name f h hf
    by_cases hd : r.optarg ≠ "-"
    · rw [if_pos hd] at h
      obtain ⟨_, rfl⟩ := parse_int_map_ok h
      exact hf _
    · rw [if_neg hd] at h
      simp only [Except.ok.injEq] at h
      rw [← h]
  have short : ∀ {a b : Int}, (r.ch = a ∨ r.ch = b) → a ≠ Triangle.POLYGON_MODE →
      b ≠ Triangle.POLYGON_MODE → r.ch ≠ Triangle.POLYGON_MODE := by
    intro a b hab ha hb
    rcases hab with h | h <;> rw [h] <;> assumption
  unfold Triangle.option_step at h
  by_cases h1 : r.ch = chr 'w' ∨ r.ch = Triangle.WINDOW_WIDTH
  · rw [if_pos h1] at h
    exact Or.inl ⟨short h1 (by decide) (by decide), numeric _ _ h (fun _ => rfl)⟩
  rw [if_neg h1] at h
  by_cases h2 : r.ch = chr 'g' ∨ r.ch = Triangle.WINDOW_HEIGHT
  · rw [if_pos h2] at h
    exact Or.inl ⟨short h2 (by decide) (by decide), numeric _ _ h (fun _ => rfl)⟩
  rw [if_neg h2] at h
  by_cases h3 : r.ch = chr 'x' ∨ r.ch = Triangle.CELLS_IN_X
  · rw [if_pos h3] at h
    exact Or.inl ⟨short h3 (by decide) (by decide), numeric _ _ h (fun _ => rfl)⟩
  rw [if_neg h3] at h
  by_cases h4 : r.ch = chr 'y' ∨ r.ch = Triangle.CELLS_IN_Y
  · rw [if_pos h4] at h
    exact Or.inl ⟨short h4 (by decide) (by decide), numeric _ _ h (fun _ => rfl)⟩
  rw [if_neg h4] at h
  by_cases h5 : r.ch = chr 'z' ∨ r.ch = Triangle.LAYERS
  · rw [if_pos h5] at h
    exact Or.inl ⟨short h5 (by decide) (by decide), numeric _ _ h (fun _ => rfl)⟩
  rw [if_neg h5] at h
  by_cases h6 : r.ch = Triangle.ENABLE_DEPTH_TEST
  · rw [if_pos h6] at h
    simp only [Except.ok.injEq] at h
    exact Or.inl ⟨by rw [h6]; decide, by rw [← h]⟩
  rw [if_neg h6] at h
  by_cases h7 : r.ch = Triangle.ENABLE_CULL_FACE
  · rw [if_pos h7] at h
    simp only [Except.ok.injEq] at h
    exact Or.inl ⟨by rw [h7]; decide, by rw [← h]⟩
  rw [if_neg h7] at h
  by_cases h8 : r.ch = Triangle.POLYGON_MODE
  · rw [if_pos h8] at h
    refine Or.inr ⟨h8, ?_⟩
    by_cases p1 : r.optarg = "point"
    · rw [if_pos p1] at h
      simp only [Except.ok.injEq] at h
      exact Or.inl ⟨p1, by rw [← h]⟩
    rw [if_neg p1] at h
    by_cases p2 : r.optarg = "line"
    · rw [if_pos p2] at h
      simp only [Except.ok.injEq] at h
      exact Or.inr (Or.inl ⟨p2, by rw [← h]⟩)
    rw [if_neg p2] at h
    by_cases p3 : r.optarg = "fill"
    · rw [if_pos p3] at h
      simp only [Except.ok.injEq] at h
      exact Or.inr (Or.inr ⟨p3, by rw [← h]⟩)
    rw [if_neg p3] at h
    simp only [reduceCtorEq] at h
  rw [if_neg h8] at h
  by_cases h9 : r.ch = chr 'f' ∨ r.ch = Triangle.FRAMES
  · rw [if_pos h9] at h
    exact Or.inl ⟨h8, numeric _ _ h (fun _ => rfl)⟩
  rw [if_neg h9] at h
  by_cases h10 : r.ch = chr 'h' ∨ r.ch = Triangle.HELP
  · rw [if_pos h10] at h
    simp only [reduceCtorEq] at h
  · rw [if_neg h10] at h
    simp only [reduceCtorEq] at h

/-- The three values of the polygon mode. -/
theorem polygon_mode_name_values :
    Triangle.polygon_mode_name Triangle.GL_POINT = some "GL_POINT" ∧
    Triangle.polygon_mode_name Triangle.GL_LINE = some "GL_LINE" ∧
    Triangle.polygon_mode_name Triangle.GL_FILL = some "GL_FILL" := by
  decide

/-- The option loop of `triangle.c` keeps the polygon mode among the three
values. -/
theorem triangle_option_loop_polygon (rs : List GetoptResult) :
    ∀ {c c' : Triangle.Config}, Triangle.option_loop c rs = .ok c' →
      (c.polygon_mode = Triangle.GL_POINT ∨ c.polygon_mode = Triangle.GL_LINE ∨
        c.polygon_mode = Triangle.GL_FILL) →
      (c'.polygon_mode = Triangle.GL_POINT ∨ c'.polygon_mode = Triangle.GL_LINE ∨
        c'.polygon_mode = Triangle.GL_FILL) := by
  induction rs with
  | nil =>
    intro c c' h hv
    simp only [Triangle.option_loop, Except.ok.injEq] at h
    exact h ▸ hv
  | cons r rs ih =>
    intro c c' h hv
    simp only [Triangle.option_loop] at h
    cases hs : Triangle.option_step c r with
    | error e => rw [hs] at h; simp at h
    | ok c1 =>
      rw [hs] at h
      apply ih h
      rcases triangle_option_step_polygon hs with ⟨_, h1⟩ | ⟨_, ⟨_, h1⟩ | ⟨_, h1⟩ | ⟨_, h1⟩⟩
      · rw [h1]; exact hv
      · exact Or.inl h1
      · exact Or.inr (Or.inl h1)
      · exact Or.inr (Or.inr h1)

/-- Options other than `POLYGON_MODE` leave the polygon mode as it is. -/
theorem triangle_option_loop_polygon_kept (rs : List GetoptResult) :
    ∀ {c c' : Triangle.Config}, Triangle.option_loop c rs = .ok c' →
      (∀ r ∈ rs, r.ch ≠ Triangle.POLYGON_MODE) → c'.polygon_mode = c.polygon_mode := by
  induction rs with
  | nil =>
    intro c c' h _
    simp only [Triangle.option_loop, Except.ok.injEq] at h
    rw [h]
  | cons r rs ih =>
    intro c c' h hno
    simp only [Triangle.option_loop] at h
    cases hs : Triangle.option_step c r with
    | error e => rw [hs] at h; simp at h
    | ok c1 =>
      rw [hs] at h
      rw [ih h (fun r' hr' => hno r' (List.mem_cons_of_mem _ hr'))]
      rcases triangle_option_step_polygon hs with ⟨_, h1⟩ | ⟨h1, _⟩
      · exact h1
      · exact absurd h1 (hno r (List.mem_cons_self _ _))

theorem polygon_mode_name_of_value {m : Int}
    (h : m = Triangle.GL_POINT ∨ m = Triangle.GL_LINE ∨ m = Triangle.GL_FILL) :
    ∃ name, Triangle.polygon_mode_name m = some name ∧
      ((m = Triangle.GL_POINT ∧ name = "GL_POINT") ∨ (m = Triangle.GL_LINE ∧ name = "GL_LINE") ∨
        (m = Triangle.GL_FILL ∧ name = "GL_FILL")) := by
  rcases h with h | h | h <;> subst h
  · exact ⟨"GL_POINT", by decide, Or.inl ⟨rfl, rfl⟩⟩
  · exact ⟨"GL_LINE", by decide, Or.inr (Or.inl ⟨rfl, rfl⟩)⟩
  · exact ⟨"GL_FILL", by decide, Or.inr (Or.inr ⟨rfl, rfl⟩)⟩

/-- C11: in `triangle.c` the option `--polygon-mode` accepts exactly the arguments
`point`, `line` and `fill` and stores `GL_POINT`, `GL_LINE` and `GL_FILL` for them;
every other argument writes a message to the standard error stream and exits
with the non-zero status `EXIT_FAILURE`. Hence, whenever the option parsing
completes, the polygon mode is one of the three values, the assertion of
`polygon_mode_name` holds in `main`, and `polygon_mode_name` returns the name of
the value stored: `GL_FILL` when no `--polygon-mode` was given, otherwise the value
named by the last one. -/
theorem C11_polygon_mode :
    (∀ (c : Triangle.Config) (optarg : String),
      Triangle.option_step c ⟨Triangle.POLYGON_MODE, optarg⟩ =
        if optarg = "point" then .ok { c with polygon_mode := Triangle.GL_POINT }
        else if optarg = "line" then .ok { c with polygon_mode := Triangle.GL_LINE }
        else if optarg = "fill" then .ok { c with polygon_mode := Triangle.GL_FILL }
        else .error
          { status := EXIT_FAILURE, out := [],
            err := ["'--polygon-mode' must be 'point', 'line' or 'fill'!\n"] }) ∧
    EXIT_FAILURE ≠ 0 ∧
    (∀ (rs : List GetoptResult) (c : Triangle.Config), Triangle.parse_options rs = .ok c →
      (c.polygon_mode = Triangle.GL_POINT ∨ c.polygon_mode = Triangle.GL_LINE ∨
        c.polygon_mode = Triangle.GL_FILL) ∧
      ∃ name, Triangle.polygon_mode_name c.polygon_mode = some name ∧
        ((c.polygon_mode = Triangle.GL_POINT ∧ name = "GL_POINT") ∨
          (c.polygon_mode = Triangle.GL_LINE ∧ name = "GL_LINE") ∨
          (c.polygon_mode = Triangle.GL_FILL ∧ name = "GL_FILL"))) ∧
    (∀ (rs : List GetoptResult) (g : Bool),
      Triangle.main_startup rs g ≠ Startup.assertion_failed) ∧
    (∀ (rs : List GetoptResult) (c : Triangle.Config), Triangle.parse_options rs = .ok c →
      (∀ r ∈ rs, r.ch ≠ Triangle.POLYGON_MODE) → c.polygon_mode = Triangle.GL_FILL) ∧
    (∀ (pre suf : List GetoptResult) (optarg : String) (c : Triangle.Config),
      Triangle.parse_options (pre ++ ⟨Triangle.POLYGON_MODE, optarg⟩ :: suf) = .ok c →
      (∀ r ∈ suf, r.ch ≠ Triangle.POLYGON_MODE) →
      (optarg = "point" ∧ c.polygon_mode = Triangle.GL_POINT) ∨
        (optarg = "line" ∧ c.polygon_mode = Triangle.GL_LINE) ∨
        (optarg = "fill" ∧ c.polygon_mode = Triangle.GL_FILL)) := by
  have hdef : Triangle.defaults.polygon_mode = Triangle.GL_POINT ∨
      Triangle.defaults.polygon_mode = Triangle.GL_LINE ∨
      Triangle.defaults.polygon_mode = Triangle.GL_FILL := Or.inr (Or.inr rfl)
  refine ⟨triangle_option_step_polygon_mode, EXIT_FAILURE_ne_zero, ?_, ?_, ?_, ?_⟩
  · intro rs c h
    have hv := triangle_option_loop_polygon rs h hdef
    exact ⟨hv, polygon_mode_name_of_value hv⟩
  · intro rs g hfail
    unfold Triangle.main_startup at hfail
    cases hp : Triangle.parse_options rs with
    | error e => rw [hp] at hfail; simp at hfail
    | ok c =>
      rw [hp] at hfail
      obtain ⟨name, hn, _⟩ := polygon_mode_name_of_value (triangle_option_loop_polygon rs hp hdef)
      simp only [hn] at hfail
      by_cases hg : g = true
      · simp [hg] at hfail
      · simp [hg] at hfail
  · intro rs c h hno
    exact triangle_option_loop_polygon_kept rs h hno
  · intro pre suf optarg c h hno
    obtain ⟨c1, _, h2⟩ := triangle_option_loop_prefix pre _ h
    simp only [Triangle.option_loop] at h2
    cases hs : Triangle.option_step c1 ⟨Triangle.POLYGON_MODE, optarg⟩ with
    | error e => rw [hs] at h2; simp at h2
    | ok c2 =>
      rw [hs] at h2
      have hk := triangle_option_loop_polygon_kept suf h2 hno
      rcases triangle_option_step_polygon hs with ⟨h1, _⟩ | ⟨_, h1⟩
      · exact absurd rfl h1
      · rw [hk]
        exact h1

/-! ## The option `--help` -/

/-- The case `'h'`, `HELP` of the option loop body of `triangle.c`. -/
theorem triangle_option_step_help (c : Triangle.Config) (r : GetoptResult)
    (h : r.ch = chr 'h' ∨ r.ch = Triangle.HELP) :
    Triangle.option_step c r =
      .error { status := EXIT_SUCCESS, out := Triangle.usage, err := [] } := by
  obtain ⟨ch, optarg⟩ := r
  rcases h with h | h <;> simp only at h <;> subst h <;> simp +decide [Triangle.option_step]

/-- The case `'h'`, `HELP` of the option loop body of `triangle-opengles.c`. -/
theorem gles_option_step_help (c : TriangleGles.Config) (r : GetoptResult)
    (h : r.ch = chr 'h' ∨ r.ch = TriangleGles.HELP) :
    TriangleGles.option_step c r =
      .error { status := EXIT_SUCCESS, out := TriangleGles.usage, err := [] } := by
  obtain ⟨ch, optarg⟩ := r
  rcases h with h | h <;> simp only at h <;> subst h <;> simp +decide [TriangleGles.option_step]

/-- The option loop of `triangle.c` over a list of results that is cut in two. -/
theorem triangle_option_loop_append (pre suf : List GetoptResult) :
    ∀ c : Triangle.Config, Triangle.option_loop c (pre ++ suf) =
      match Triangle.option_loop c pre with
      | .ok c1 => Triangle.option_loop c1 suf
      | .error e => .error e := by
  induction pre with
  | nil => intro c; rfl
  | cons r rs ih =>
    intro c
    simp only [List.cons_append, Triangle.option_loop]
    cases Triangle.option_step c r with
    | error e => rfl
    | ok c1 => exact ih c1

/-- The option loop of `triangle-opengles.c` over a list of results that is cut in
two. -/
theorem gles_option_loop_append (pre suf : List GetoptResult) :
    ∀ c : TriangleGles.Config, TriangleGles.option_loop c (pre ++ suf) =
      match TriangleGles.option_loop c pre with
      | .ok c1 => TriangleGles.option_loop c1 suf
      | .error e => .error e := by
  induction pre with
  | nil => intro c; rfl
  | cons r rs ih =>
    intro c
    simp only [List.cons_append, TriangleGles.option_loop]
    cases TriangleGles.option_step c r with
    | error e => rfl
    | ok c1 => exact ih c1

/-- C12, as stated, fails: on the command line `--width 0 --help` the option
`--width 0` is processed first, and both programs exit with `EXIT_FAILURE`,
which is not zero, after the message of `parse_int`; the usage text is not
printed. -/
theorem C12_help_after_invalid_option :
    Triangle.main_startup [⟨Triangle.WINDOW_WIDTH, "0"⟩, ⟨Triangle.HELP, ""⟩] true =
      .exited { status := EXIT_FAILURE, out := [],
                err := ["`width` must be a number greater than zero!\n"] } ∧
    TriangleGles.main_startup [⟨TriangleGles.WINDOW_WIDTH, "0"⟩, ⟨TriangleGles.HELP, ""⟩] true =
      .exited { status := EXIT_FAILURE, out := [],
                err := ["`width` must be a number greater than zero!\n"] } ∧
    EXIT_FAILURE ≠ 0 :=
  ⟨rfl, rfl, by decide⟩

/-- C12, amended: in either program, when `getopt_long` reports `--help` (or `-h`)
and every option it reported before was processed without exit, the program
prints the usage text and exits with status zero without creating a window,
whatever options follow; when an earlier option exits, that exit is the outcome
of the program, whatever follows it. -/
theorem C12_help_exits_zero (pre suf : List GetoptResult) (r : GetoptResult) :
    (∀ c : Triangle.Config, (r.ch = chr 'h' ∨ r.ch = Triangle.HELP) →
      Triangle.parse_options pre = .ok c → ∀ g : Bool,
      Triangle.main_startup (pre ++ r :: suf) g =
        .exited { status := EXIT_SUCCESS, out := Triangle.usage, err := [] }) ∧
    (∀ e : Exit, Triangle.parse_options pre = .error e → ∀ g : Bool,
      Triangle.main_startup (pre ++ r :: suf) g = .exited e) ∧
    (∀ c : TriangleGles.Config, (r.ch = chr 'h' ∨ r.ch = TriangleGles.HELP) →
      TriangleGles.parse_options pre = .ok c → ∀ g : Bool,
      TriangleGles.main_startup (pre ++ r :: suf) g =
        .exited { status := EXIT_SUCCESS, out := TriangleGles.usage, err := [] }) ∧
    (∀ e : Exit, TriangleGles.parse_options pre = .error e → ∀ g : Bool,
      TriangleGles.main_startup (pre ++ r :: suf) g = .exited e) ∧
    EXIT_SUCCESS = 0 := by
  refine ⟨?_, ?_, ?_, ?_, rfl⟩
  · intro c hr hpre g
    unfold Triangle.parse_options at hpre
    simp only [Triangle.main_startup, Triangle.parse_options, triangle_option_loop_append, hpre,
      Triangle.option_loop, triangle_option_step_help _ r hr]
  · intro e hpre g
    unfold Triangle.parse_options at hpre
    simp only [Triangle.main_startup, Triangle.parse_options, triangle_option_loop_append, hpre]
  · intro c hr hpre g
    unfold TriangleGles.parse_options at hpre
    simp only [TriangleGles.main_startup, TriangleGles.parse_options, gles_option_loop_append,
      hpre, TriangleGles.option_loop, gles_option_step_help _ r hr]
  · intro e hpre g
    unfold TriangleGles.parse_options at hpre
    simp only [TriangleGles.main_startup, TriangleGles.parse_options, gles_option_loop_append,
      hpre]

/-- C12, amended, on `--layers 2 --help --width 0` and on `-h`. -/
theorem C12_help_exits_zero_witness :
    Triangle.main_startup
        ([⟨Triangle.LAYERS, "2"⟩] ++ ⟨Triangle.HELP, ""⟩ :: [⟨Triangle.WINDOW_WIDTH, "0"⟩]) true =
      .exited { status := EXIT_SUCCESS, out := Triangle.usage, err := [] } ∧
    TriangleGles.main_startup ([] ++ ⟨chr 'h', ""⟩ :: []) true =
      .exited { status := EXIT_SUCCESS, out := TriangleGles.usage, err := [] } :=
  ⟨(C12_help_exits_zero [⟨Triangle.LAYERS, "2"⟩] [⟨Triangle.WINDOW_WIDTH, "0"⟩]
      ⟨Triangle.HELP, ""⟩).1 { Triangle.defaults with z := 2 } (Or.inr rfl) rfl true,
    (C12_help_exits_zero [] [] ⟨chr 'h', ""⟩).2.2.1 TriangleGles.defaults (Or.inl rfl) rfl true⟩

/-! ## The divisors of the shader in 32-bit integers -/

namespace Shader

/-- With a non-zero 32-bit `layer_size` and a non-zero `CellX` the index
computation of the shader is defined. -/
theorem indices32_of_ne_zero {X Y : Int} (i : Int) (hL : layer_size32 X Y ≠ 0) (hX : X ≠ 0) :
    indices32 X Y i =
      some (Int.tdiv i (layer_size32 X Y), Int.tdiv (Int.tmod i (layer_size32 X Y)) X,
        Int.tmod (Int.tmod i (layer_size32 X Y)) X) := by
  simp [indices32, checked_div, checked_mod, hL, hX]

/-- A zero divisor leaves the index computation undefined. -/
theorem indices32_of_layer_size_zero {X Y : Int} (i : Int) (hL : layer_size32 X Y = 0) :
    indices32 X Y i = none := by
  simp [indices32, checked_div, hL]

theorem layer_size32_exact {X Y : Int} (hX : 1 ≤ X) (hY : 1 ≤ Y) (hfit : X * Y < 2 ^ 31) :
    layer_size32 X Y = layer_size X Y := by
  have h1 : 1 ≤ X * Y := by nlinarith
  unfold layer_size32 mulInt32 layer_size
  exact toInt32_of_range (by omega) hfit

theorem divisors32_ne_zero {X Y Z : Int} (hL : layer_size32 X Y ≠ 0) (hX : X ≠ 0)
    (hY : Y ≠ 0) (hZ : Z ≠ 0) : ∀ d ∈ divisors32 X Y Z, d ≠ 0 := by
  intro d hd
  simp only [divisors32, List.mem_cons, List.mem_singleton, List.not_mem_nil, or_false] at hd
  rcases hd with h | h | h | h | h | h | h <;> rw [h] <;> assumption

end Shader

namespace Shader

/-- When `CellX * CellY` fits in a 32-bit `int`, no divisor is zero and the 32-bit
index computation is the one over the unbounded integers. -/
theorem total_of_fit {X Y Z : Int} (hX : 1 ≤ X) (hY : 1 ≤ Y) (hZ : 1 ≤ Z)
    (hfit : X * Y < 2 ^ 31) :
    (∀ d ∈ divisors32 X Y Z, d ≠ 0) ∧
      ∀ i : Int, indices32 X Y i = some (layer_idx X Y i, y_idx X Y i, x_idx X Y i) := by
  have hE := layer_size32_exact hX hY hfit
  have hL : layer_size32 X Y ≠ 0 := by
    rw [hE]
    exact ne_of_gt (layer_size_pos hX hY)
  refine ⟨divisors32_ne_zero hL (by omega) (by omega) (by omega), fun i => ?_⟩
  rw [indices32_of_ne_zero i hL (by omega), hE]
  rfl

end Shader

/-- When `CellX * CellY` is a multiple of `2^32` the 32-bit `layer_size` is zero, and
so is the number of instances either program draws: with the accepted options
`--cells-in-x 65536 --cells-in-y 65536` no instance reaches the shader. -/
theorem layer_size32_zero_draws_nothing :
    Triangle.parse_options [⟨Triangle.CELLS_IN_X, "65536"⟩, ⟨Triangle.CELLS_IN_Y, "65536"⟩] =
      .ok { Triangle.defaults with x := 65536, y := 65536 } ∧
    TriangleGles.parse_options
        [⟨TriangleGles.CELLS_IN_X, "65536"⟩, ⟨TriangleGles.CELLS_IN_Y, "65536"⟩] =
      .ok { TriangleGles.defaults with x := 65536, y := 65536 } ∧
    Shader.layer_size32 65536 65536 = 0 ∧
    Triangle.draw_instancecount { Triangle.defaults with x := 65536, y := 65536 } = 0 ∧
    TriangleGles.draw_instancecount { TriangleGles.defaults with x := 65536, y := 65536 } = 0 :=
  ⟨rfl, rfl, by decide, by decide, by decide⟩

namespace Shader

/-- The placement scales the signed area of a triangle by `step_x * step_y / 4`. -/
theorem signedArea_placed (X Y Z i : Int) (a b c : Vec3) :
    signedArea (placed X Y Z i a) (placed X Y Z i b) (placed X Y Z i c) =
      step_x X * step_y Y / 4 * signedArea (a.x, a.y) (b.x, b.y) (c.x, c.y) := by
  simp only [signedArea, placed, gl_Position]
  ring

end Shader

/-- The two triangles of the mesh are the same in both programs. -/
theorem meshTriangles_eq :
    meshTriangles Triangle.vertices =
      [(⟨-1, -1, 0⟩, ⟨1, -1, 0⟩, ⟨-1, 1, 0⟩), (⟨-1, 1, 0⟩, ⟨1, -1, 0⟩, ⟨1, 1, 0⟩)] ∧
    meshTriangles TriangleGles.vertices =
      [(⟨-1, -1, 0⟩, ⟨1, -1, 0⟩, ⟨-1, 1, 0⟩), (⟨-1, 1, 0⟩, ⟨1, -1, 0⟩, ⟨1, 1, 0⟩)] :=
  ⟨rfl, rfl⟩

/-- Both triangles of the mesh have the signed area 2 in local coordinates. -/
theorem mesh_signedArea {t : Shader.Vec3 × Shader.Vec3 × Shader.Vec3}
    (ht : t ∈ meshTriangles Triangle.vertices ∨ t ∈ meshTriangles TriangleGles.vertices) :
    Shader.signedArea (t.1.x, t.1.y) (t.2.1.x, t.2.1.y) (t.2.2.x, t.2.2.y) = 2 := by
  rw [meshTriangles_eq.1, meshTriangles_eq.2, or_self] at ht
  simp only [List.mem_cons, List.mem_singleton, List.not_mem_nil, or_false] at ht
  rcases ht with rfl | rfl <;> norm_num [Shader.signedArea]

/-- C14: with exact arithmetic, in both programs the static mesh consists of the
two triangles of the vertices 0-2 and 3-5; its vertices are exactly the four
corners `(-1,-1)`, `(1,-1)`, `(-1,1)`, `(1,1)` with `z = 0`; both triangles are
counter-clockwise (signed area 2 in the XY plane); and for all
`CellX, CellY, Layers >= 1` and every instance the placed triangles have the
signed area `step_x*step_y/2`, which is strictly positive, so they are
front-facing. -/
theorem C14_mesh_counter_clockwise (CellX CellY Layers i : Int)
    (hX : 1 ≤ CellX) (hY : 1 ≤ CellY) (_hZ : 1 ≤ Layers) :
    (Triangle.vertices.map (fun v => coords v.pos) =
        [(-1, -1, 0), (1, -1, 0), (-1, 1, 0), (-1, 1, 0), (1, -1, 0), (1, 1, 0)] ∧
      TriangleGles.vertices.map (fun v => coords v.pos) =
        [(-1, -1, 0), (1, -1, 0), (-1, 1, 0), (-1, 1, 0), (1, -1, 0), (1, 1, 0)]) ∧
    (∀ p : ℚ × ℚ × ℚ,
      (p ∈ Triangle.vertices.map (fun v => coords v.pos) ↔
        p ∈ [((-1 : ℚ), (-1 : ℚ), (0 : ℚ)), (1, -1, 0), (-1, 1, 0), (1, 1, 0)]) ∧
      (p ∈ TriangleGles.vertices.map (fun v => coords v.pos) ↔
        p ∈ [((-1 : ℚ), (-1 : ℚ), (0 : ℚ)), (1, -1, 0), (-1, 1, 0), (1, 1, 0)])) ∧
    ((meshTriangles Triangle.vertices).length = 2 ∧
      (meshTriangles TriangleGles.vertices).length = 2) ∧
    (∀ t : Shader.Vec3 × Shader.Vec3 × Shader.Vec3,
      t ∈ meshTriangles Triangle.vertices ∨ t ∈ meshTriangles TriangleGles.vertices →
      Shader.signedArea (t.1.x, t.1.y) (t.2.1.x, t.2.1.y) (t.2.2.x, t.2.2.y) = 2 ∧
      0 < Shader.signedArea (t.1.x, t.1.y) (t.2.1.x, t.2.1.y) (t.2.2.x, t.2.2.y) ∧
      Shader.signedArea (Shader.placed CellX CellY Layers i t.1)
          (Shader.placed CellX CellY Layers i t.2.1) (Shader.placed CellX CellY Layers i t.2.2) =
        Shader.step_x CellX * Shader.step_y CellY / 2 ∧
      0 < Shader.signedArea (Shader.placed CellX CellY Layers i t.1)
          (Shader.placed CellX CellY Layers i t.2.1) (Shader.placed CellX CellY Layers i t.2.2) ∧
      Shader.frontFacing (Shader.placed CellX CellY Layers i t.1)
          (Shader.placed CellX CellY Layers i t.2.1)
          (Shader.placed CellX CellY Layers i t.2.2)) := by
  have hsx := Shader.step_x_pos hX
  have hsy := Shader.step_y_pos hY
  refine ⟨⟨rfl, rfl⟩, ?_, ⟨rfl, rfl⟩, ?_⟩
  · intro p
    have h1 : Triangle.vertices.map (fun v => coords v.pos) =
        [(-1, -1, 0), (1, -1, 0), (-1, 1, 0), (-1, 1, 0), (1, -1, 0), (1, 1, 0)] := rfl
    have h2 : TriangleGles.vertices.map (fun v => coords v.pos) =
        [(-1, -1, 0), (1, -1, 0), (-1, 1, 0), (-1, 1, 0), (1, -1, 0), (1, 1, 0)] := rfl
    rw [h1, h2]
    simp only [List.mem_cons, List.mem_singleton, List.not_mem_nil, or_false]
    constructor <;> tauto
  · intro t ht
    have h2 := mesh_signedArea ht
    have harea : Shader.signedArea (Shader.placed CellX CellY Layers i t.1)
        (Shader.placed CellX CellY Layers i t.2.1) (Shader.placed CellX CellY Layers i t.2.2) =
        Shader.step_x CellX * Shader.step_y CellY / 2 := by
      rw [Shader.signedArea_placed, h2]
      ring
    have hpos : 0 < Shader.step_x CellX * Shader.step_y CellY / 2 := by positivity
    refine ⟨h2, by rw [h2]; norm_num, harea, by rw [harea]; exact hpos, ?_⟩
    unfold Shader.frontFacing
    rw [harea]
    exact hpos

/-- C14 at the last instance of the default grid, for the first triangle of the
mesh. -/
theorem C14_mesh_counter_clockwise_witness :
    Shader.signedArea (Shader.placed 16 12 4 767 ⟨-1, -1, 0⟩)
        (Shader.placed 16 12 4 767 ⟨1, -1, 0⟩) (Shader.placed 16 12 4 767 ⟨-1, 1, 0⟩) =
      Shader.step_x 16 * Shader.step_y 12 / 2 ∧
    Shader.frontFacing (Shader.placed 16 12 4 767 ⟨-1, -1, 0⟩)
        (Shader.placed 16 12 4 767 ⟨1, -1, 0⟩) (Shader.placed 16 12 4 767 ⟨-1, 1, 0⟩) :=
  have h := (C14_mesh_counter_clockwise 16 12 4 767 (by decide) (by decide) (by decide)).2.2.2
    (⟨-1, -1, 0⟩, ⟨1, -1, 0⟩, ⟨-1, 1, 0⟩) (Or.inl (List.mem_cons_self _ _))
  ⟨h.2.2.1, h.2.2.2.2⟩

/-! ## Row-major order in the 32-bit shader -/

/-- C2, as stated, fails on the shader's 32-bit `int`: the options `-x 65537 -y 65537`
are accepted, `layer_size = 65537 * 65537` wraps to 131073, and `triangle.c`
draws 524292 instances; for the drawn instance 131073 the shader computes
`(layer_idx, y_idx, x_idx) = (1, 0, 0)`, whereas `i mod CellX = 65536`,
`(i div CellX) mod CellY = 1` and `layer_idx*CellX*CellY + y_idx*CellX + x_idx` is
not `i`. -/
theorem C2_layer_size_wraps :
    Triangle.parse_options [⟨chr 'x', "65537"⟩, ⟨chr 'y', "65537"⟩] =
      .ok { Triangle.defaults with x := 65537, y := 65537 } ∧
    Triangle.draw_instancecount { Triangle.defaults with x := 65537, y := 65537 } = 524292 ∧
    ((0 : Int) ≤ 131073 ∧ (131073 : Int) < 524292) ∧
    Shader.layer_size32 65537 65537 = 131073 ∧
    Shader.indices32 65537 65537 131073 = some (1, 0, 0) ∧
    (131073 : Int) % 65537 = 65536 ∧
    ((131073 : Int) / 65537) % 65537 = 1 ∧
    (131073 : Int) ≠ 1 * 65537 * 65537 + 0 * 65537 + 0 :=
  ⟨rfl, by decide, by decide, by decide, by decide, by decide, by decide, by decide⟩

/-- C2, amended: whenever `layer_size = CellX * CellY` fits in the shader's 32-bit
`int`, the decomposition is row-major with `x` fastest: for all
`CellX, CellY >= 1` with `CellX * CellY < 2^31` and every `gl_InstanceID = i >= 0`
the shader computes indices with `i = layer_idx*CellX*CellY + y_idx*CellX + x_idx`,
`x_idx = i mod CellX` and `y_idx = (i div CellX) mod CellY`; with `CellX = 2`,
`CellY = 2` instance 0 maps to `(0, 0, 0)` and instance 3 to
`(layer_idx, y_idx, x_idx) = (0, 1, 1)`. -/
theorem C2_row_major_when_layer_size_fits (CellX CellY i : Int)
    (hX : 1 ≤ CellX) (hY : 1 ≤ CellY) (hfit : CellX * CellY < 2 ^ 31) (hi : 0 ≤ i) :
    (∃ layer_idx y_idx x_idx : Int,
      Shader.indices32 CellX CellY i = some (layer_idx, y_idx, x_idx) ∧
      i = layer_idx * CellX * CellY + y_idx * CellX + x_idx ∧
      x_idx = i % CellX ∧
      y_idx = (i / CellX) % CellY) ∧
    Shader.indices32 2 2 0 = some (0, 0, 0) ∧
    Shader.indices32 2 2 3 = some (0, 1, 1) := by
  refine ⟨?_, by decide, by decide⟩
  obtain ⟨h1, h2, h3⟩ := row_major_unbounded hX hY hi
  exact ⟨_, _, _, (Shader.total_of_fit hX hY (le_refl 1) hfit).2 i, h1, h2, h3⟩

/-- C2, amended, on the default grid of 16 by 12 cells at instance 200. -/
theorem C2_row_major_when_layer_size_fits_witness :
    (∃ layer_idx y_idx x_idx : Int,
      Shader.indices32 16 12 200 = some (layer_idx, y_idx, x_idx) ∧
      (200 : Int) = layer_idx * 16 * 12 + y_idx * 16 + x_idx ∧
      x_idx = (200 : Int) % 16 ∧
      y_idx = ((200 : Int) / 16) % 12) ∧
    Shader.indices32 2 2 0 = some (0, 0, 0) ∧
    Shader.indices32 2 2 3 = some (0, 1, 1) :=
  C2_row_major_when_layer_size_fits 16 12 200 (by decide) (by decide) (by decide) (by decide)
